import Mathlib

/-!
Verification of the `svmkit-vixen-grpc-demo` client (`src/vixen-client/src/main.rs`)
against its natural-language specification.

The Rust program is orchestration glue: a provisioning task
(`airdrop_and_mint_token` with helpers `airdrop_new_address`, `create_mint`,
`create_token_accounts`, `mint_to`, `fetch_token_balance`), a streaming task
(`vixen_client`), and a `main` supervisor that spawns both and awaits only the
streaming task.  We embed each piece shallowly:

* RPC interactions are modelled by an explicit environment record `Env S`
  whose methods return `Except Err` results while threading a state `S`;
  program functions are state-passing functions that also record an event
  trace (RPC calls, sleeps, balance log lines).
* The streaming loop is modelled over an explicit list of stream items,
  with the two protobuf decoders as opaque parameters.
* `main`'s task wiring is modelled by outcome-level functions: each spawned
  closure catches returned error values and logs a fixed message, while a
  panic inside the closure surfaces as a join error on the task handle.

Nondeterministic key generation (`Keypair::new`) is modelled by passing the
generated public keys as parameters.
-/

set_option autoImplicit false

namespace VixenDemo

/-! ### Basic identifiers -/

/-- Public keys, signatures and blockhashes are opaque identifiers; we model
them as natural numbers. -/
abbrev Pubkey := Nat

/-- Transaction signatures returned by the RPC service. -/
abbrev Sig := Nat

/-- Recent blockhashes returned by the RPC service. -/
abbrev Hash := Nat

/-- The distinguished program id `spl_token_2022::id()`. -/
def spl_token_2022_id : Pubkey := 2022

/-! ### Streaming model (`vixen_client`, lines 51-72 of main.rs)

The stream yields `update : ProgramStreamsResponse` values whose `parsed`
field is an optional type-tagged payload (`prost_types::Any`); its `value`
is an opaque byte blob.  The source first unwraps `update.parsed`, then
tries `TokenExtensionProgramIxProto::decode`, and only if that fails tries
`TokenExtensionStateProto::decode`; each decoded message's inner oneof field
is unwrapped before logging.  The generated prost decoders are external;
they appear here as opaque parameters. -/

/-- Model of `prost_types::Any`: an opaque byte payload (type url elided). -/
structure AnyPayload where
  value : List Nat
deriving DecidableEq, Repr

/-- Model of a received stream envelope: its `parsed` field is optional. -/
structure ProgramUpdate where
  parsed : Option AnyPayload
deriving DecidableEq, Repr

/-- Model of the generated `TokenExtensionProgramIxProto` message: a single
optional oneof field, whose concrete variants are opaque to this program. -/
structure TokenExtensionProgramIxProto where
  ix_oneof : Option Nat
deriving DecidableEq, Repr

/-- Model of the generated `TokenExtensionStateProto` message: a single
optional oneof field, whose concrete variants are opaque to this program. -/
structure TokenExtensionStateProto where
  state_oneof : Option Nat
deriving DecidableEq, Repr

/-- The external prost decoder for the instruction shape
(`TokenExtensionProgramIxProto::decode`), as an opaque parameter:
`none` models a decode error. -/
abbrev IxDecoder := List Nat → Option TokenExtensionProgramIxProto

/-- The external prost decoder for the state shape
(`TokenExtensionStateProto::decode`), as an opaque parameter. -/
abbrev StateDecoder := List Nat → Option TokenExtensionStateProto

/-- Which decoders the loop body attempted, in order. -/
inductive DecodeAttempt
  | ix
  | state
deriving DecidableEq, Repr

/-- Outcome of handling one envelope in the streaming loop body. -/
inductive HandleResult
  | loggedIx (v : Nat)
  | loggedState (v : Nat)
  | dropped
  | panicMissingPayload
  | panicMissingVariant
deriving DecidableEq, Repr

/-- Whether a loop-body outcome is a panic (an `unwrap` failure). -/
def HandleResult.isPanicked : HandleResult → Bool
  | .panicMissingPayload => true
  | .panicMissingVariant => true
  | _ => false

/-- Log lines emitted by one loop-body outcome: a successful decode logs the
parsed message; a dropped envelope logs nothing (the `warn!` in the source is
commented out). -/
def handleLogs : HandleResult → List String
  | .loggedIx _ => ["Parsed message"]
  | .loggedState _ => ["Parsed message"]
  | _ => []

/-- Body of the `while let` loop in `vixen_client` (main.rs lines 58-70):
unwrap `update.parsed`; try the instruction decoder; on failure try the state
decoder; unwrap the inner oneof of whichever succeeded; drop otherwise.
Returns the decode attempts made, in order, and the outcome. -/
def handleUpdate (dIx : IxDecoder) (dState : StateDecoder) (u : ProgramUpdate) :
    List DecodeAttempt × HandleResult :=
  match u.parsed with
  | none => ([], .panicMissingPayload)
  | some any =>
    match dIx any.value with
    | some parsed_message =>
      ([DecodeAttempt.ix],
        match parsed_message.ix_oneof with
        | some val => .loggedIx val
        | none => .panicMissingVariant)
    | none =>
      match dState any.value with
      | some parsed_message =>
        ([DecodeAttempt.ix, DecodeAttempt.state],
          match parsed_message.state_oneof with
          | some val => .loggedState val
          | none => .panicMissingVariant)
      | none => ([DecodeAttempt.ix, DecodeAttempt.state], .dropped)

/-- One result of `stream.message().await`: a message, a clean end of stream
(`Ok(None)`), or a transport error (`Err(_)`, propagated by `?`). -/
inductive StreamItem
  | msg (u : ProgramUpdate)
  | closed
  | transportErr
deriving DecidableEq, Repr

/-- How a task body finishes: returns `Ok`, returns an error value, or
panics. -/
inductive TaskOutcome
  | ok
  | errValue
  | panicked
deriving DecidableEq, Repr

/-- The streaming loop of `vixen_client` over an explicit sequence of stream
results: processes envelopes in order; a transport error aborts the loop with
a returned error (`?`); end of stream exits cleanly; a panic in the body ends
the task abruptly.  Returns the per-envelope handling outcomes and how the
task finished. -/
def vixen_client (dIx : IxDecoder) (dState : StateDecoder) :
    List StreamItem → List (List DecodeAttempt × HandleResult) × TaskOutcome
  | [] => ([], .ok)
  | .closed :: _ => ([], .ok)
  | .transportErr :: _ => ([], .errValue)
  | .msg u :: rest =>
    let hr := handleUpdate dIx dState u
    if hr.2.isPanicked then ([hr], .panicked)
    else
      let tl := vixen_client dIx dState rest
      (hr :: tl.1, tl.2)

/-! ### Supervisor model (`main`, lines 25-49 of main.rs)

`main` spawns two tasks.  Each spawned closure runs its body and, if the body
returns an error value, logs a fixed message with the error content discarded
(`if let Err(_e) = res { error!("...") }`).  A panic inside the closure is not
caught by the closure: it surfaces as a join error on the task handle.  The
handle of the provisioning task is dropped; only the streaming task's handle
is awaited, and its join error is propagated by `?` out of `main`. -/

/-- Structured content of an error value returned by a task body; the
supervisor boundary discards it. -/
abbrev ErrContent := String

/-- How a spawned task body finished, with the error content it returned. -/
inductive InnerOutcome
  | ok
  | errValue (e : ErrContent)
  | panicked
deriving DecidableEq, Repr

/-- Result of awaiting a task's join handle: normal completion, or a join
error (the body panicked). -/
inductive JoinOutcome
  | finished
  | joinError
deriving DecidableEq, Repr

/-- The fixed message logged by the provisioning task's boundary
(main.rs line 35). -/
def mint_task_error_message : String := "Error airdropping or minting token"

/-- The fixed message logged by the streaming task's boundary
(main.rs line 43). -/
def stream_task_error_message : String := "Error connecting to Vixen client"

/-- Log lines emitted by a spawned closure's error boundary: a returned error
value produces exactly the fixed message (content discarded); a normal return
or a panic produces none. -/
def taskBoundaryLogs (fixedMsg : String) : InnerOutcome → List String
  | .errValue _ => [fixedMsg]
  | _ => []

/-- Joining the task handle: a panic in the body becomes a join error;
otherwise the closure completed normally (even if the body returned an
error value, which the closure swallowed). -/
def taskJoin : InnerOutcome → JoinOutcome
  | .panicked => .joinError
  | _ => .finished

/-- Process exit status. -/
inductive ExitStatus
  | success
  | failure
deriving DecidableEq, Repr

/-- The two top-level tasks spawned by `main`. -/
inductive TaskName
  | mintTask
  | streamTask
deriving DecidableEq, Repr

/-- The task handles `main` awaits before returning: only the streaming
task's handle (`vixen_client.await?`); the provisioning task's handle is
dropped at the `tokio::spawn` call (main.rs line 31). -/
def mainAwaitedTasks : List TaskName := [TaskName.streamTask]

/-- Observable outcome of one `main` run, as a function of how each task
body finished. -/
structure MainRun where
  mintLogs : List String
  streamLogs : List String
  exit : ExitStatus
deriving DecidableEq, Repr

/-- `main` (main.rs lines 25-49): each boundary logs its fixed message on a
returned error value; the exit status is determined solely by joining the
streaming task's handle — a join error (panic) is propagated by `?` and fails
the process, anything else exits successfully. -/
def mainRun (mintOutcome streamOutcome : InnerOutcome) : MainRun :=
  { mintLogs := taskBoundaryLogs mint_task_error_message mintOutcome
    streamLogs := taskBoundaryLogs stream_task_error_message streamOutcome
    exit :=
      match taskJoin streamOutcome with
      | .joinError => .failure
      | .finished => .success }

/-! ### UI amount formatting (`spl_token_2022::amount_to_ui_amount_string`)

Embedded from the spl-token-2022 crate source: left-pad the decimal
representation of `amount` with zeros to width `decimals + 1`, then insert a
decimal point `decimals` places from the right.  It does not trim trailing
zeros (that is the separate `amount_to_ui_amount_string_trimmed`, which the
client does not use). -/

/-- Left-pad a digit list with zeros up to the given width
(`format!("{:01$}", amount, width)`). -/
def padZeros (s : List Char) (width : Nat) : List Char :=
  List.replicate (width - s.length) '0' ++ s

/-- `spl_token_2022::amount_to_ui_amount_string`. -/
def amount_to_ui_amount_string (amount : Nat) (decimals : Nat) : String :=
  if decimals > 0 then
    let ds := padZeros (Nat.repr amount).data (decimals + 1)
    String.mk (ds.take (ds.length - decimals) ++ '.' :: ds.drop (ds.length - decimals))
  else Nat.repr amount

/-! ### Instructions and transactions

The instruction builders live in external crates (`solana_sdk` and
`spl_token_2022`); we embed them at the level of their public contracts: each
produces a structured instruction, and each spl builder validates the token
program id first (`check_program_account`), which is the only way they can
fail for the arguments this client passes. -/

/-- Structured content of the instructions this client builds. -/
inductive Instruction
  | createAccount (funder newAccount : Pubkey) (lamports space : Nat) (owner : Pubkey)
  | initializeMint (tokenProgram mint mintAuthority : Pubkey)
      (freezeAuthority : Option Pubkey) (decimals : Nat)
  | initializeAccount (tokenProgram account mint owner : Pubkey)
  | mintToIx (tokenProgram mint dest authority : Pubkey) (amount : Nat)
  | transferCheckedIx (tokenProgram source mint dest authority : Pubkey)
      (amount decimals : Nat)
deriving DecidableEq, Repr

/-- Errors a provisioning step can abort with.  `rpc` is a failed RPC call,
`unpack` a failed `TokenAccount::unpack`, `invalidProgramId` a failed
instruction-builder validation; `fuel` is not a program error but the marker
for an execution cut off by the fuel bound on the (source-unbounded)
confirmation loop, i.e. a run that has not yet returned. -/
inductive Err
  | rpc
  | unpack
  | invalidProgramId
  | fuel
deriving DecidableEq, Repr

/-- `spl_token_2022::check_program_account`. -/
def check_program_account (tokenProgramId : Pubkey) : Except Err Unit :=
  if tokenProgramId = spl_token_2022_id then .ok () else .error .invalidProgramId

/-- `solana_sdk::system_instruction::create_account`. -/
def system_create_account (funder newAccount : Pubkey) (lamports space : Nat)
    (owner : Pubkey) : Instruction :=
  .createAccount funder newAccount lamports space owner

namespace Spl

/-- `spl_token_2022::instruction::initialize_mint`. -/
def initialize_mint (tokenProgramId mint mintAuthority : Pubkey)
    (freezeAuthority : Option Pubkey) (decimals : Nat) : Except Err Instruction := do
  check_program_account tokenProgramId
  return Instruction.initializeMint tokenProgramId mint mintAuthority freezeAuthority decimals

/-- `spl_token_2022::instruction::initialize_account`. -/
def initialize_account (tokenProgramId account mint owner : Pubkey) :
    Except Err Instruction := do
  check_program_account tokenProgramId
  return Instruction.initializeAccount tokenProgramId account mint owner

/-- `spl_token_2022::instruction::mint_to`. -/
def mint_to (tokenProgramId mint dest authority : Pubkey) (amount : Nat) :
    Except Err Instruction := do
  check_program_account tokenProgramId
  return Instruction.mintToIx tokenProgramId mint dest authority amount

/-- `spl_token_2022::instruction::transfer_checked`. -/
def transfer_checked (tokenProgramId source mint dest authority : Pubkey)
    (amount decimals : Nat) : Except Err Instruction := do
  check_program_account tokenProgramId
  return Instruction.transferCheckedIx tokenProgramId source mint dest authority amount decimals

end Spl

/-- `spl_token_2022::state::Mint::LEN`. -/
def Mint_LEN : Nat := 82

/-- `spl_token_2022::state::Account::LEN`. -/
def TokenAccount_LEN : Nat := 165

/-- A signed transaction as this client constructs it:
`Transaction::new_signed_with_payer(instructions, payer, signers, blockhash)`. -/
structure Transaction where
  instructions : List Instruction
  payer : Option Pubkey
  signers : List Pubkey
  recentBlockhash : Hash
deriving DecidableEq, Repr

/-- `Transaction::new_signed_with_payer`. -/
def Transaction.new_signed_with_payer (instructions : List Instruction)
    (payer : Option Pubkey) (signers : List Pubkey) (recentBlockhash : Hash) :
    Transaction :=
  ⟨instructions, payer, signers, recentBlockhash⟩

/-! ### The RPC environment and the provisioning monad

Each provisioning function talks to the validator through `RpcClient`.  We
model the client as a record of fallible methods threading an environment
state `S`, and run programs as explicit state-passing functions that also
record an event trace: every RPC call, every `tokio::time::sleep`, and every
balance log line. -/

/-- Raw account data fetched by `get_account`, abstracted to the only thing
this client does with it: `TokenAccount::unpack` either succeeds, yielding the
account's token amount (`some amount`), or fails (`none`). -/
abbrev AccountData := Option Nat

/-- One RPC call, with the arguments the client passes. -/
inductive RpcCall
  | requestAirdrop (dest : Pubkey) (lamports : Nat)
  | confirmTransaction (sig : Sig)
  | getMinimumBalanceForRentExemption (size : Nat)
  | getLatestBlockhash
  | sendAndConfirmTransaction (tx : Transaction)
  | getAccount (acct : Pubkey)
deriving DecidableEq, Repr

/-- Observable events of a provisioning run. -/
inductive Event
  | call (c : RpcCall)
  | sleepSecs (seconds : Nat)
  | logBalance (account : Pubkey) (ui : String)
deriving DecidableEq, Repr

/-- The external RPC collaborator: each method may fail and threads a state. -/
structure Env (S : Type) where
  requestAirdrop : Pubkey → Nat → S → Except Err Sig × S
  confirmTransaction : Sig → S → Except Err Bool × S
  getMinimumBalanceForRentExemption : Nat → S → Except Err Nat × S
  getLatestBlockhash : S → Except Err Hash × S
  sendAndConfirmTransaction : Transaction → S → Except Err Sig × S
  getAccount : Pubkey → S → Except Err AccountData × S

/-- Run state: the environment state plus the event trace so far. -/
abbrev St (S : Type) := S × List Event

/-- A provisioning computation: state in, fallible result and state out. -/
abbrev M (S : Type) (α : Type) := St S → Except Err α × St S

/-- Sequencing with short-circuit on error (Rust `?`). -/
def bindE {S : Type} {α β : Type} (x : M S α) (f : α → M S β) : M S β := fun st =>
  match x st with
  | (.ok a, st1) => f a st1
  | (.error e, st1) => (.error e, st1)

/-- A pure result. -/
def pureE {S : Type} {α : Type} (a : α) : M S α := fun st => (.ok a, st)

/-- Lift a fallible pure computation (an instruction builder or unpack). -/
def ofExcept {S : Type} {α : Type} (x : Except Err α) : M S α := fun st => (x, st)

/-- Record a non-RPC event (a sleep or a log line). -/
def emit {S : Type} (ev : Event) : M S Unit := fun st => (.ok (), (st.1, st.2 ++ [ev]))

/-- Perform one RPC call: record the call event and consult the environment. -/
def rpc {S : Type} {α : Type} (c : RpcCall) (f : S → Except Err α × S) : M S α :=
  fun st =>
    let r := f st.1
    (r.1, (r.2, st.2 ++ [Event.call c]))

/-- `rpc_client.request_airdrop_with_config(...)`. -/
def call_requestAirdrop {S : Type} (E : Env S) (pk : Pubkey) (lamports : Nat) : M S Sig :=
  rpc (.requestAirdrop pk lamports) (E.requestAirdrop pk lamports)

/-- `rpc_client.confirm_transaction_with_commitment(sig, finalized)`, returning
the `value` field of the response. -/
def call_confirmTransaction {S : Type} (E : Env S) (sig : Sig) : M S Bool :=
  rpc (.confirmTransaction sig) (E.confirmTransaction sig)

/-- `rpc_client.get_minimum_balance_for_rent_exemption(size)`. -/
def call_getMinimumBalanceForRentExemption {S : Type} (E : Env S) (size : Nat) : M S Nat :=
  rpc (.getMinimumBalanceForRentExemption size) (E.getMinimumBalanceForRentExemption size)

/-- `rpc_client.get_latest_blockhash()`. -/
def call_getLatestBlockhash {S : Type} (E : Env S) : M S Hash :=
  rpc .getLatestBlockhash E.getLatestBlockhash

/-- `rpc_client.send_and_confirm_transaction(&tx)`. -/
def call_sendAndConfirmTransaction {S : Type} (E : Env S) (tx : Transaction) : M S Sig :=
  rpc (.sendAndConfirmTransaction tx) (E.sendAndConfirmTransaction tx)

/-- `rpc_client.get_account(&pk)`. -/
def call_getAccount {S : Type} (E : Env S) (pk : Pubkey) : M S AccountData :=
  rpc (.getAccount pk) (E.getAccount pk)

/-- `spl_token_2022::state::Account::unpack` on fetched account data, at the
abstraction of `AccountData`. -/
def TokenAccount_unpack (d : AccountData) : Except Err Nat :=
  match d with
  | some amount => .ok amount
  | none => .error .unpack

/-! ### The provisioning functions (main.rs lines 74-315) -/

/-- The `while !res.value` confirmation loop of `airdrop_new_address`
(main.rs lines 158-162), given the `value` of the query just made: while it
is `false`, sleep one second and re-query.  The source loop is unbounded;
`fuel` bounds how many retries this embedding will unfold, and running out of
fuel yields the `Err.fuel` marker (a run that has not returned). -/
def confirmLoop {S : Type} (E : Env S) (signature : Sig) :
    Nat → Bool → M S Unit
  | _, true => pureE ()
  | 0, false => fun st => (.error .fuel, st)
  | fuel + 1, false =>
    bindE (emit (.sleepSecs 1)) (fun _ =>
    bindE (call_confirmTransaction E signature) (fun res =>
    confirmLoop E signature fuel res))

/-- `airdrop_new_address` (main.rs lines 147-164): request an airdrop of
1_000_000_000 lamports with finalized commitment, then poll
`confirm_transaction_with_commitment` until its `value` is true. -/
def airdrop_new_address {S : Type} (E : Env S) (pubkey : Pubkey) (fuel : Nat) : M S Unit :=
  bindE (call_requestAirdrop E pubkey 1000000000) (fun signature =>
  bindE (call_confirmTransaction E signature) (fun res =>
  confirmLoop E signature fuel res))

/-- `create_mint` (main.rs lines 166-202): rent query, then one transaction
of two instructions (create account + initialize mint, decimals 6), signed by
the identity and the mint keypair. -/
def create_mint {S : Type} (E : Env S) (mint_keypair kp : Pubkey) : M S Unit :=
  let mint_pubkey := mint_keypair
  let decimals := 6
  bindE (call_getMinimumBalanceForRentExemption E Mint_LEN) (fun rent =>
  let create_account_ix := system_create_account kp mint_pubkey rent Mint_LEN spl_token_2022_id
  bindE (ofExcept (Spl.initialize_mint spl_token_2022_id mint_pubkey kp none decimals))
    (fun initialize_mint_ix =>
  bindE (call_getLatestBlockhash E) (fun recent_blockhash =>
  let tx := Transaction.new_signed_with_payer [create_account_ix, initialize_mint_ix]
    (some kp) [kp, mint_keypair] recent_blockhash
  bindE (call_sendAndConfirmTransaction E tx) (fun _signature =>
  pureE ()))))

/-- `create_token_accounts` (main.rs lines 205-271): rent query, then one
transaction of four instructions (create + initialize for each of the two
accounts), signed by the payer and both new account keypairs.  The two
freshly generated keypairs are parameters. -/
def create_token_accounts {S : Type} (E : Env S)
    (payer mint_pubkey token_account1 token_account2 : Pubkey) :
    M S (Pubkey × Pubkey) :=
  bindE (call_getMinimumBalanceForRentExemption E TokenAccount_LEN) (fun rent =>
  let create_account1_ix :=
    system_create_account payer token_account1 rent TokenAccount_LEN spl_token_2022_id
  let create_account2_ix :=
    system_create_account payer token_account2 rent TokenAccount_LEN spl_token_2022_id
  bindE (ofExcept (Spl.initialize_account spl_token_2022_id token_account1 mint_pubkey payer))
    (fun init_account1_ix =>
  bindE (ofExcept (Spl.initialize_account spl_token_2022_id token_account2 mint_pubkey payer))
    (fun init_account2_ix =>
  bindE (call_getLatestBlockhash E) (fun recent_blockhash =>
  let tx := Transaction.new_signed_with_payer
    [create_account1_ix, init_account1_ix, create_account2_ix, init_account2_ix]
    (some payer) [payer, token_account1, token_account2] recent_blockhash
  bindE (call_sendAndConfirmTransaction E tx) (fun _sig =>
  pureE (token_account1, token_account2))))))

/-- `mint_to` (main.rs lines 273-309): one mint-to instruction in one
transaction signed by the payer alone. -/
def mint_to {S : Type} (E : Env S) (payer mint_pubkey token_account_pubkey : Pubkey)
    (amount : Nat) : M S Unit :=
  bindE (ofExcept (Spl.mint_to spl_token_2022_id mint_pubkey token_account_pubkey payer amount))
    (fun mint_to_ix =>
  bindE (call_getLatestBlockhash E) (fun recent_blockhash =>
  let tx := Transaction.new_signed_with_payer [mint_to_ix] (some payer) [payer] recent_blockhash
  bindE (call_sendAndConfirmTransaction E tx) (fun _sig =>
  pureE ())))

/-- `fetch_token_balance` (main.rs lines 311-315): fetch the account and
unpack its data, yielding the token amount. -/
def fetch_token_balance {S : Type} (E : Env S) (token_account_pubkey : Pubkey) : M S Nat :=
  bindE (call_getAccount E token_account_pubkey) (fun account_info =>
  ofExcept (TokenAccount_unpack account_info))

/-- `airdrop_and_mint_token` (main.rs lines 74-145): the full provisioning
sequence.  The four freshly generated keypairs (identity, mint, two token
accounts) are parameters. -/
def airdrop_and_mint_token {S : Type} (E : Env S)
    (kp mint_keypair ta1 ta2 : Pubkey) (fuel : Nat) : M S Unit :=
  bindE (airdrop_new_address E kp fuel) (fun _ =>
  bindE (create_mint E mint_keypair kp) (fun _ =>
  bindE (create_token_accounts E kp mint_keypair ta1 ta2) (fun pks =>
  bindE (mint_to E kp mint_keypair pks.1 10000000000) (fun _ =>
  bindE (fetch_token_balance E pks.1) (fun balance =>
  bindE (emit (.logBalance pks.1 (amount_to_ui_amount_string balance 6))) (fun _ =>
  bindE (fetch_token_balance E pks.2) (fun balance2 =>
  bindE (emit (.logBalance pks.2 (amount_to_ui_amount_string balance2 6))) (fun _ =>
  let transfer_amount := 1000000000
  bindE (ofExcept (Spl.transfer_checked spl_token_2022_id pks.1 mint_keypair pks.2 kp
    transfer_amount 6)) (fun transfer_instruction =>
  bindE (call_getLatestBlockhash E) (fun recent_blockhash =>
  let tx := Transaction.new_signed_with_payer [transfer_instruction] (some kp) [kp]
    recent_blockhash
  bindE (call_sendAndConfirmTransaction E tx) (fun _sig =>
  bindE (fetch_token_balance E pks.1) (fun balance3 =>
  bindE (emit (.logBalance pks.1 (amount_to_ui_amount_string balance3 6))) (fun _ =>
  bindE (fetch_token_balance E pks.2) (fun balance4 =>
  bindE (emit (.logBalance pks.2 (amount_to_ui_amount_string balance4 6))) (fun _ =>
  pureE ())))))))))))))))

/-! ### A scripted RPC environment

To reason about arbitrary RPC behaviors we instantiate `Env` with a script:
a function from the call index (how many RPC calls were made before) to
either a well-typed answer or `none`, a failed RPC call.  The environment
state is the next call index. -/

/-- A well-typed RPC answer. -/
inductive Answer
  | sig (s : Sig)
  | bool (b : Bool)
  | nat (n : Nat)
  | hash (h : Hash)
  | account (d : AccountData)
deriving DecidableEq, Repr

/-- Project a signature answer; a variant mismatch (unreachable for scripts
matching the call protocol) yields a default. -/
def Answer.asSig : Answer → Sig
  | .sig s => s
  | _ => 0

/-- Project a boolean answer. -/
def Answer.asBool : Answer → Bool
  | .bool b => b
  | _ => false

/-- Project a numeric answer. -/
def Answer.asNat : Answer → Nat
  | .nat n => n
  | _ => 0

/-- Project a blockhash answer. -/
def Answer.asHash : Answer → Hash
  | .hash h => h
  | _ => 0

/-- Project an account-data answer. -/
def Answer.asAccount : Answer → AccountData
  | .account d => d
  | _ => none

/-- A script: what the RPC service answers to the n-th call
(`none` = the call fails). -/
abbrev Script := Nat → Option Answer

/-- Answer one scripted call and advance the call index. -/
def scriptAnswer {α : Type} (script : Script) (proj : Answer → α) (n : Nat) :
    Except Err α × Nat :=
  match script n with
  | some a => (.ok (proj a), n + 1)
  | none => (.error .rpc, n + 1)

/-- The scripted environment. -/
def scriptEnv (script : Script) : Env Nat where
  requestAirdrop := fun _ _ n => scriptAnswer script Answer.asSig n
  confirmTransaction := fun _ n => scriptAnswer script Answer.asBool n
  getMinimumBalanceForRentExemption := fun _ n => scriptAnswer script Answer.asNat n
  getLatestBlockhash := fun n => scriptAnswer script Answer.asHash n
  sendAndConfirmTransaction := fun _ n => scriptAnswer script Answer.asSig n
  getAccount := fun _ n => scriptAnswer script Answer.asAccount n

/-- The script of a pure confirmation-poll experiment: the airdrop request
succeeds (signature 0) and the i-th confirmation-status query reports
finalized exactly when `f i` is true. -/
def pollScript (f : Nat → Bool) : Script := fun n =>
  if n = 0 then some (.sig 0) else some (.bool (f (n - 1)))

/-- The expected event trace of `airdrop_new_address` when the first
finalized response is the `retries`-th re-query: the airdrop request, the
initial status query, then one 1-second sleep and one re-query per
not-finalized response. -/
def airdropPollEvents (pk : Pubkey) (retries : Nat) : List Event :=
  Event.call (.requestAirdrop pk 1000000000) :: Event.call (.confirmTransaction 0) ::
    (List.replicate retries [Event.sleepSecs 1, Event.call (.confirmTransaction 0)]).flatten

/-! ### Trace projections -/

/-- The RPC call recorded by an event, if any. -/
def eventCall : Event → Option RpcCall
  | .call c => some c
  | _ => none

/-- The RPC calls of a trace, in order. -/
def callsOf (evs : List Event) : List RpcCall :=
  evs.filterMap eventCall

/-- The transaction submitted by an event, if any. -/
def eventSentTx : Event → Option Transaction
  | .call (RpcCall.sendAndConfirmTransaction tx) => some tx
  | _ => none

/-- The transactions submitted via send-and-confirm in a trace, in order. -/
def sentTxs (evs : List Event) : List Transaction :=
  evs.filterMap eventSentTx

/-- The balance log lines of a trace, in order. -/
def balanceLogs (evs : List Event) : List (Pubkey × String) :=
  evs.filterMap (fun e =>
    match e with
    | .logBalance pk s => some (pk, s)
    | _ => none)

/-- A shape tag separating the four transactions this client ever builds:
the mint-to and checked-transfer single-instruction transactions by their
instruction kind, the two-instruction mint-creation transaction, and
everything else (here: the four-instruction token-accounts transaction). -/
def txShapeTag (tx : Transaction) : Nat :=
  match tx.instructions with
  | [Instruction.mintToIx _ _ _ _ _] => 2
  | [Instruction.transferCheckedIx _ _ _ _ _ _ _] => 3
  | [_, _] => 0
  | _ => 1

/-- Abort discipline of a provisioning fragment under a scripted environment:
from any starting call index and trace, the fragment appends a trace delta
whose calls consume consecutive script entries; every consumed entry except
possibly the last is answered; the run result is the RPC error exactly when
the last consumed entry is unanswered; and the transactions it submits carry
shape tags forming a sublist of `tags`. -/
def ScriptFrag (script : Script) (tags : List Nat) {α : Type} (p : M Nat α) : Prop :=
  ∀ n evs res n2 evs2, p (n, evs) = (res, (n2, evs2)) →
    ∃ delta, evs2 = evs ++ delta ∧ n2 = n + (callsOf delta).length ∧
      (∀ i, i + 1 < (callsOf delta).length → (script (n + i)).isSome = true) ∧
      (res = Except.error Err.rpc →
        0 < (callsOf delta).length ∧ script (n + (callsOf delta).length - 1) = none) ∧
      (res ≠ Except.error Err.rpc →
        ∀ i, i < (callsOf delta).length → (script (n + i)).isSome = true) ∧
      List.Sublist ((sentTxs delta).map txShapeTag) tags

/-! ### A faithful ledger environment

Claim C3 is conditional on the external RPC collaborator applying each
confirmed transaction faithfully.  This environment realizes that hypothesis:
it keeps a ledger of lamport balances, mints and token accounts and applies
each submitted transaction's instructions in order with the token program's
documented semantics (signature verification elided; every submitted
transaction is immediately finalized). -/

/-- A token account in the ledger. -/
structure TokenAcct where
  mint : Pubkey
  owner : Pubkey
  amount : Nat
deriving DecidableEq, Repr

/-- A mint in the ledger. -/
structure MintState where
  mintAuthority : Pubkey
  decimals : Nat
  supply : Nat
deriving DecidableEq, Repr

/-- The ledger. -/
structure World where
  lamports : List (Pubkey × Nat)
  mints : List (Pubkey × MintState)
  tokenAccts : List (Pubkey × TokenAcct)
deriving DecidableEq, Repr

/-- The empty ledger. -/
def World.empty : World := ⟨[], [], []⟩

/-- Association-list lookup. -/
def alookup {β : Type} : List (Pubkey × β) → Pubkey → Option β
  | [], _ => none
  | (k, v) :: l, key => if k = key then some v else alookup l key

/-- Association-list update-or-insert. -/
def aset {β : Type} : List (Pubkey × β) → Pubkey → β → List (Pubkey × β)
  | [], key, v => [(key, v)]
  | (k, w) :: l, key, v => if k = key then (key, v) :: l else (k, w) :: aset l key v

/-- Lamport balance of a key (0 when absent). -/
def World.bal (w : World) (pk : Pubkey) : Nat :=
  (alookup w.lamports pk).getD 0

/-- Faithful semantics of one instruction; `none` is a failed transaction. -/
def applyInstruction (w : World) : Instruction → Option World
  | .createAccount funder newAccount lamports _space _owner =>
    if lamports ≤ w.bal funder then
      let debited := aset w.lamports funder (w.bal funder - lamports)
      some { w with lamports := aset debited newAccount (w.bal newAccount + lamports) }
    else none
  | .initializeMint _prog mint mintAuthority _freeze decimals =>
    match alookup w.mints mint with
    | some _ => none
    | none => some { w with mints := aset w.mints mint ⟨mintAuthority, decimals, 0⟩ }
  | .initializeAccount _prog account mint owner =>
    match alookup w.tokenAccts account with
    | some _ => none
    | none => some { w with tokenAccts := aset w.tokenAccts account ⟨mint, owner, 0⟩ }
  | .mintToIx _prog mint dest authority amount =>
    match alookup w.mints mint, alookup w.tokenAccts dest with
    | some ms, some ta =>
      if authority = ms.mintAuthority ∧ ta.mint = mint then
        some { w with
          mints := aset w.mints mint { ms with supply := ms.supply + amount }
          tokenAccts := aset w.tokenAccts dest { ta with amount := ta.amount + amount } }
      else none
    | _, _ => none
  | .transferCheckedIx _prog source mint dest authority amount decimals =>
    match alookup w.tokenAccts source, alookup w.tokenAccts dest, alookup w.mints mint with
    | some src, some dst, some ms =>
      if authority = src.owner ∧ src.mint = mint ∧ dst.mint = mint ∧
          decimals = ms.decimals ∧ amount ≤ src.amount then
        let afterSrc := aset w.tokenAccts source { src with amount := src.amount - amount }
        some { w with tokenAccts := aset afterSrc dest { dst with amount := dst.amount + amount } }
      else none
    | _, _, _ => none

/-- Apply a transaction's instructions atomically, in order. -/
def applyTx (w : World) : List Instruction → Option World
  | [] => some w
  | ix :: rest =>
    match applyInstruction w ix with
    | some w2 => applyTx w2 rest
    | none => none

/-- Rent-exempt minimum as a function of account size; the concrete value is
immaterial to every claim, any fixed function works. -/
def rentFor (size : Nat) : Nat := (size + 128) * 6960

/-- The faithful environment over the ledger. -/
def faithfulEnv : Env World where
  requestAirdrop := fun pk lamports w =>
    (.ok 0, { w with lamports := aset w.lamports pk (w.bal pk + lamports) })
  confirmTransaction := fun _ w => (.ok true, w)
  getMinimumBalanceForRentExemption := fun size w => (.ok (rentFor size), w)
  getLatestBlockhash := fun w => (.ok 0, w)
  sendAndConfirmTransaction := fun tx w =>
    match applyTx w tx.instructions with
    | some w2 => (.ok 0, w2)
    | none => (.error .rpc, w)
  getAccount := fun pk w =>
    match alookup w.tokenAccts pk with
    | some ta => (.ok (some ta.amount), w)
    | none => (.error .rpc, w)

/-! ### Concrete sample inputs used by witnesses -/

/-- A sample instruction decoder: succeeds on payload `[0]` with inner
variant `5`, fails otherwise. -/
def exDecIx : IxDecoder := fun b => if b = [0] then some ⟨some 5⟩ else none

/-- A sample state decoder that always fails. -/
def exDecState : StateDecoder := fun _ => none

/-- A sample state decoder: succeeds on payload `[1]` with inner variant
`7`, fails otherwise. -/
def exDecStateHit : StateDecoder := fun b => if b = [1] then some ⟨some 7⟩ else none

/-- A sample instruction decoder whose decoded message has no inner
variant. -/
def exDecIxNoVariant : IxDecoder := fun b => if b = [0] then some ⟨none⟩ else none

/-- A sample state decoder whose decoded message has no inner variant. -/
def exDecStateNoVariant : StateDecoder := fun b => if b = [1] then some ⟨none⟩ else none

/-- A sample envelope whose payload is `[0]`. -/
def exUpdate0 : ProgramUpdate := ⟨some ⟨[0]⟩⟩

/-- A sample envelope whose payload is `[1]`. -/
def exUpdate1 : ProgramUpdate := ⟨some ⟨[1]⟩⟩

/-- A sample envelope with no payload. -/
def exUpdateNoPayload : ProgramUpdate := ⟨none⟩

/-- A sample confirmation-response sequence: finalized first reported by the
third query (index 2). -/
def exPollResponses : Nat → Bool := fun n => n == 2

/-- A confirmation-response sequence that never reports finalized. -/
def exNeverFinalized : Nat → Bool := fun _ => false

/-- A sample script whose fourth RPC call (the blockhash query inside
`create_mint`) fails. -/
def exFailScript : Script := fun n =>
  if n = 0 then some (.sig 0)
  else if n = 1 then some (.bool true)
  else if n = 2 then some (.nat 50)
  else none

/-- The event trace of the provisioning run under `exFailScript`: it stops
at the failed call. -/
def exFailEvents : List Event :=
  [Event.call (.requestAirdrop 0 1000000000), Event.call (.confirmTransaction 0),
   Event.call (.getMinimumBalanceForRentExemption 82), Event.call .getLatestBlockhash]

/-- A sample script whose calls are all answered, but whose eleventh call —
the first balance read — returns account data that fails
`TokenAccount::unpack`. -/
def exUnpackScript : Script := fun n =>
  if n = 0 then some (.sig 0)
  else if n = 1 then some (.bool true)
  else if n = 2 then some (.nat 50)
  else if n = 3 then some (.hash 7)
  else if n = 4 then some (.sig 0)
  else if n = 5 then some (.nat 60)
  else if n = 6 then some (.hash 7)
  else if n = 7 then some (.sig 0)
  else if n = 8 then some (.hash 7)
  else if n = 9 then some (.sig 0)
  else if n = 10 then some (.account none)
  else none

/-- The event trace of the provisioning run under `exUnpackScript`: exactly
eleven calls, stopping at the undecodable balance read — the transfer is
never submitted. -/
def exUnpackEvents : List Event :=
  [Event.call (.requestAirdrop 0 1000000000),
   Event.call (.confirmTransaction 0),
   Event.call (.getMinimumBalanceForRentExemption 82),
   Event.call .getLatestBlockhash,
   Event.call (.sendAndConfirmTransaction
     ⟨[Instruction.createAccount 0 1 50 82 spl_token_2022_id,
       Instruction.initializeMint spl_token_2022_id 1 0 none 6],
      some 0, [0, 1], 7⟩),
   Event.call (.getMinimumBalanceForRentExemption 165),
   Event.call .getLatestBlockhash,
   Event.call (.sendAndConfirmTransaction
     ⟨[Instruction.createAccount 0 2 60 165 spl_token_2022_id,
       Instruction.initializeAccount spl_token_2022_id 2 1 0,
       Instruction.createAccount 0 3 60 165 spl_token_2022_id,
       Instruction.initializeAccount spl_token_2022_id 3 1 0],
      some 0, [0, 2, 3], 7⟩),
   Event.call .getLatestBlockhash,
   Event.call (.sendAndConfirmTransaction
     ⟨[Instruction.mintToIx spl_token_2022_id 1 2 0 10000000000],
      some 0, [0], 7⟩),
   Event.call (.getAccount 2)]

/-! ### The faithful run, made explicit

Under `faithfulEnv` the provisioning run is fully determined by the four
generated keys; the following definitions spell out its submitted
transactions, intermediate ledgers and event trace (rent values are
`rentFor 82 = 1461600` and `rentFor 165 = 2039280`; every blockhash and
signature is 0). -/

/-- The mint-creation transaction of the faithful run. -/
def mintTxOf (kp mintk : Pubkey) : Transaction :=
  ⟨[Instruction.createAccount kp mintk 1461600 82 spl_token_2022_id,
    Instruction.initializeMint spl_token_2022_id mintk kp none 6],
   some kp, [kp, mintk], 0⟩

/-- The token-accounts transaction of the faithful run. -/
def accountsTxOf (kp mintk ta1 ta2 : Pubkey) : Transaction :=
  ⟨[Instruction.createAccount kp ta1 2039280 165 spl_token_2022_id,
    Instruction.initializeAccount spl_token_2022_id ta1 mintk kp,
    Instruction.createAccount kp ta2 2039280 165 spl_token_2022_id,
    Instruction.initializeAccount spl_token_2022_id ta2 mintk kp],
   some kp, [kp, ta1, ta2], 0⟩

/-- The mint-to transaction of the faithful run. -/
def mintToTxOf (kp mintk ta1 : Pubkey) : Transaction :=
  ⟨[Instruction.mintToIx spl_token_2022_id mintk ta1 kp 10000000000], some kp, [kp], 0⟩

/-- The checked-transfer transaction of the faithful run. -/
def transferTxOf (kp mintk ta1 ta2 : Pubkey) : Transaction :=
  ⟨[Instruction.transferCheckedIx spl_token_2022_id ta1 mintk ta2 kp 1000000000 6],
   some kp, [kp], 0⟩

/-- Ledger after the airdrop. -/
def fw1 (kp : Pubkey) : World := ⟨[(kp, 1000000000)], [], []⟩

/-- Ledger after mint creation. -/
def fw2 (kp mintk : Pubkey) : World :=
  ⟨[(kp, 998538400), (mintk, 1461600)], [(mintk, ⟨kp, 6, 0⟩)], []⟩

/-- Ledger after token-account creation. -/
def fw3 (kp mintk ta1 ta2 : Pubkey) : World :=
  ⟨[(kp, 994459840), (mintk, 1461600), (ta1, 2039280), (ta2, 2039280)],
   [(mintk, ⟨kp, 6, 0⟩)],
   [(ta1, ⟨mintk, kp, 0⟩), (ta2, ⟨mintk, kp, 0⟩)]⟩

/-- Ledger after minting the initial supply. -/
def fw4 (kp mintk ta1 ta2 : Pubkey) : World :=
  ⟨[(kp, 994459840), (mintk, 1461600), (ta1, 2039280), (ta2, 2039280)],
   [(mintk, ⟨kp, 6, 10000000000⟩)],
   [(ta1, ⟨mintk, kp, 10000000000⟩), (ta2, ⟨mintk, kp, 0⟩)]⟩

/-- Final ledger of the faithful run. -/
def faithfulFinalWorld (kp mintk ta1 ta2 : Pubkey) : World :=
  ⟨[(kp, 994459840), (mintk, 1461600), (ta1, 2039280), (ta2, 2039280)],
   [(mintk, ⟨kp, 6, 10000000000⟩)],
   [(ta1, ⟨mintk, kp, 9000000000⟩), (ta2, ⟨mintk, kp, 1000000000⟩)]⟩

/-- Full event trace of the faithful run. -/
def faithfulEvents (kp mintk ta1 ta2 : Pubkey) : List Event :=
  [Event.call (.requestAirdrop kp 1000000000),
   Event.call (.confirmTransaction 0),
   Event.call (.getMinimumBalanceForRentExemption 82),
   Event.call .getLatestBlockhash,
   Event.call (.sendAndConfirmTransaction (mintTxOf kp mintk)),
   Event.call (.getMinimumBalanceForRentExemption 165),
   Event.call .getLatestBlockhash,
   Event.call (.sendAndConfirmTransaction (accountsTxOf kp mintk ta1 ta2)),
   Event.call .getLatestBlockhash,
   Event.call (.sendAndConfirmTransaction (mintToTxOf kp mintk ta1)),
   Event.call (.getAccount ta1),
   Event.logBalance ta1 (amount_to_ui_amount_string 10000000000 6),
   Event.call (.getAccount ta2),
   Event.logBalance ta2 (amount_to_ui_amount_string 0 6),
   Event.call .getLatestBlockhash,
   Event.call (.sendAndConfirmTransaction (transferTxOf kp mintk ta1 ta2)),
   Event.call (.getAccount ta1),
   Event.logBalance ta1 (amount_to_ui_amount_string 9000000000 6),
   Event.call (.getAccount ta2),
   Event.logBalance ta2 (amount_to_ui_amount_string 1000000000 6)]

end VixenDemo

namespace VixenDemo

/-! ## Theorems -/

/-! ### Streaming claims -/

/-- C2: For every received envelope whose payload decodes successfully as the
instruction shape, the decoder does not attempt the state shape; for every
payload that fails to decode as either shape, the envelope is dropped
silently (no log line emitted) and the stream loop continues to the next
envelope without aborting. -/
theorem decode_dispatch_spec (dIx : IxDecoder) (dState : StateDecoder)
    (u : ProgramUpdate) (any : AnyPayload) (rest : List StreamItem) :
    (∀ m, u.parsed = some any → dIx any.value = some m →
      (handleUpdate dIx dState u).1 = [DecodeAttempt.ix]) ∧
    (u.parsed = some any → dIx any.value = none → dState any.value = none →
      handleUpdate dIx dState u = ([DecodeAttempt.ix, DecodeAttempt.state], .dropped) ∧
      handleLogs (handleUpdate dIx dState u).2 = [] ∧
      vixen_client dIx dState (StreamItem.msg u :: rest) =
        (([DecodeAttempt.ix, DecodeAttempt.state], HandleResult.dropped) ::
          (vixen_client dIx dState rest).1, (vixen_client dIx dState rest).2)) := by
  constructor
  · intro m hp hm
    cases u
    cases hp
    simp [handleUpdate, hm]
  · intro hp hi hs
    cases u
    cases hp
    simp [handleUpdate, hi, hs, vixen_client, HandleResult.isPanicked, handleLogs]

/-- Witness for C2 at concrete decoders and envelopes. -/
theorem decode_dispatch_spec_witness :
    (handleUpdate exDecIx exDecState exUpdate0).1 = [DecodeAttempt.ix] ∧
    handleUpdate exDecIx exDecState exUpdate1 =
      ([DecodeAttempt.ix, DecodeAttempt.state], .dropped) ∧
    vixen_client exDecIx exDecState [StreamItem.msg exUpdate1, StreamItem.closed] =
      ([([DecodeAttempt.ix, DecodeAttempt.state], HandleResult.dropped)], .ok) := by
  have h0 := (decode_dispatch_spec exDecIx exDecState exUpdate0 ⟨[0]⟩ []).1
    ⟨some 5⟩ rfl rfl
  have h1 := (decode_dispatch_spec exDecIx exDecState exUpdate1 ⟨[1]⟩ [StreamItem.closed]).2
    rfl rfl rfl
  refine ⟨h0, h1.1, ?_⟩
  rw [h1.2.2]
  rfl

/-- C6: For every received envelope that carries no parsed payload, the
streaming task fails by panicking (the unconditional `unwrap`) rather than
treating the absence as a recoverable empty case or a fallible error value:
the loop stops at once with a panicked outcome. -/
theorem missing_payload_panics_spec (dIx : IxDecoder) (dState : StateDecoder)
    (u : ProgramUpdate) (rest : List StreamItem) (h : u.parsed = none) :
    handleUpdate dIx dState u = ([], .panicMissingPayload) ∧
    vixen_client dIx dState (StreamItem.msg u :: rest) =
      ([([], HandleResult.panicMissingPayload)], .panicked) := by
  cases u
  cases h
  exact ⟨rfl, rfl⟩

/-- Witness for C6 at a concrete payloadless envelope. -/
theorem missing_payload_panics_spec_witness :
    handleUpdate exDecIx exDecState exUpdateNoPayload = ([], .panicMissingPayload) ∧
    vixen_client exDecIx exDecState [StreamItem.msg exUpdateNoPayload] =
      ([([], HandleResult.panicMissingPayload)], .panicked) :=
  missing_payload_panics_spec exDecIx exDecState exUpdateNoPayload [] rfl

/-- C9: For every envelope whose payload decodes as the instruction shape
(resp. the state shape) but whose decoded message carries no inner oneof
variant, the streaming task panics on the unconditional `unwrap` of that
inner field — an extra panic path beyond the missing-payload one. -/
theorem missing_oneof_panics_spec (dIx : IxDecoder) (dState : StateDecoder)
    (u : ProgramUpdate) (any : AnyPayload) :
    (∀ m, u.parsed = some any → dIx any.value = some m → m.ix_oneof = none →
      handleUpdate dIx dState u = ([DecodeAttempt.ix], .panicMissingVariant) ∧
      ∀ rest, vixen_client dIx dState (StreamItem.msg u :: rest) =
        ([([DecodeAttempt.ix], HandleResult.panicMissingVariant)], .panicked)) ∧
    (∀ ms, u.parsed = some any → dIx any.value = none → dState any.value = some ms →
      ms.state_oneof = none →
      handleUpdate dIx dState u =
        ([DecodeAttempt.ix, DecodeAttempt.state], .panicMissingVariant) ∧
      ∀ rest, vixen_client dIx dState (StreamItem.msg u :: rest) =
        ([([DecodeAttempt.ix, DecodeAttempt.state], HandleResult.panicMissingVariant)],
          .panicked)) := by
  constructor
  · intro m hp hm ho
    cases u
    cases hp
    have hh : handleUpdate dIx dState ⟨some any⟩ =
        ([DecodeAttempt.ix], .panicMissingVariant) := by
      simp [handleUpdate, hm, ho]
    refine ⟨hh, fun rest => ?_⟩
    simp [vixen_client, hh, HandleResult.isPanicked]
  · intro ms hp hi hs ho
    cases u
    cases hp
    have hh : handleUpdate dIx dState ⟨some any⟩ =
        ([DecodeAttempt.ix, DecodeAttempt.state], .panicMissingVariant) := by
      simp [handleUpdate, hi, hs, ho]
    refine ⟨hh, fun rest => ?_⟩
    simp [vixen_client, hh, HandleResult.isPanicked]

/-- Witness for C9 at concrete decoders whose messages lack inner variants,
covering both the instruction and the state shape. -/
theorem missing_oneof_panics_spec_witness :
    handleUpdate exDecIxNoVariant exDecStateNoVariant exUpdate0 =
      ([DecodeAttempt.ix], .panicMissingVariant) ∧
    vixen_client exDecIxNoVariant exDecStateNoVariant [StreamItem.msg exUpdate0] =
      ([([DecodeAttempt.ix], HandleResult.panicMissingVariant)], .panicked) ∧
    handleUpdate exDecIxNoVariant exDecStateNoVariant exUpdate1 =
      ([DecodeAttempt.ix, DecodeAttempt.state], .panicMissingVariant) := by
  have h0 := (missing_oneof_panics_spec exDecIxNoVariant exDecStateNoVariant
    exUpdate0 ⟨[0]⟩).1 ⟨none⟩ rfl rfl rfl
  have h1 := (missing_oneof_panics_spec exDecIxNoVariant exDecStateNoVariant
    exUpdate1 ⟨[1]⟩).2 ⟨none⟩ rfl rfl rfl rfl
  exact ⟨h0.1, h0.2 [], h1.1⟩

/-! ### The confirmation poller (claim C1) -/

/-- Under a pure confirmation-response script, the `while !res.value` loop
entered with the k-th response in hand terminates exactly at the first index
`n ≥ k` whose response is finalized, appending one 1-second sleep and one
re-query per not-finalized response. -/
theorem confirmLoop_pollScript_finds (f : Nat → Bool) :
    ∀ (fuel k n : Nat) (evs : List Event), k ≤ n → n ≤ k + fuel →
    (∀ m, k ≤ m → m < n → f m = false) → f n = true →
    confirmLoop (scriptEnv (pollScript f)) 0 fuel (f k) (k + 2, evs) =
      (.ok (), (n + 2, evs ++
        (List.replicate (n - k)
          [Event.sleepSecs 1, Event.call (.confirmTransaction 0)]).flatten)) := by
  intro fuel
  induction fuel with
  | zero =>
    intro k n evs hkn hnk _hfalse htrue
    have hk : n = k := Nat.le_antisymm (by omega) hkn
    subst hk
    rw [htrue]
    simp [confirmLoop, pureE]
  | succ fuel ih =>
    intro k n evs hkn hnk hfalse htrue
    by_cases hfk : f k = true
    · have hk : n = k := by
        by_contra hne
        have hlt : k < n := Nat.lt_of_le_of_ne hkn (fun h => hne h.symm)
        have := hfalse k (Nat.le_refl k) hlt
        rw [this] at hfk
        exact Bool.false_ne_true hfk
      subst hk
      rw [hfk]
      simp [confirmLoop, pureE]
    · have hfk2 : f k = false := by
        cases h : f k
        · rfl
        · exact absurd h hfk
      have hklt : k < n := by
        rcases Nat.lt_or_ge k n with h | h
        · exact h
        · have hk : n = k := Nat.le_antisymm h hkn
          rw [hk] at htrue
          rw [htrue] at hfk2
          exact absurd hfk2 (by simp)
      rw [hfk2]
      show (bindE (emit (.sleepSecs 1)) (fun _ =>
        bindE (call_confirmTransaction (scriptEnv (pollScript f)) 0) (fun res =>
        confirmLoop (scriptEnv (pollScript f)) 0 fuel res))) (k + 2, evs) = _
      have hstep : (bindE (emit (.sleepSecs 1)) (fun _ =>
          bindE (call_confirmTransaction (scriptEnv (pollScript f)) 0) (fun res =>
          confirmLoop (scriptEnv (pollScript f)) 0 fuel res))) (k + 2, evs) =
          confirmLoop (scriptEnv (pollScript f)) 0 fuel (f (k + 1))
            ((k + 1) + 2, evs ++ [Event.sleepSecs 1, Event.call (.confirmTransaction 0)]) := by
        simp [bindE, emit, call_confirmTransaction, rpc, scriptEnv, scriptAnswer, pollScript,
          Answer.asBool]
      rw [hstep]
      rw [ih (k + 1) n (evs ++ [Event.sleepSecs 1, Event.call (.confirmTransaction 0)])
        (by omega) (by omega) (fun m hm1 hm2 => hfalse m (by omega) hm2) htrue]
      have hrep : n - k = (n - (k + 1)) + 1 := by omega
      rw [hrep, List.replicate_succ, List.flatten_cons]
      simp

/-- Under a confirmation-response script that never reports finalized, the
loop never returns: every fuel bound is exhausted. -/
theorem confirmLoop_pollScript_unbounded (f : Nat → Bool) (hf : ∀ n, f n = false) :
    ∀ (fuel k : Nat) (evs : List Event),
    (confirmLoop (scriptEnv (pollScript f)) 0 fuel (f k) (k + 2, evs)).1 =
      .error .fuel := by
  intro fuel
  induction fuel with
  | zero =>
    intro k evs
    rw [hf k]
    rfl
  | succ fuel ih =>
    intro k evs
    rw [hf k]
    show ((bindE (emit (.sleepSecs 1)) (fun _ =>
      bindE (call_confirmTransaction (scriptEnv (pollScript f)) 0) (fun res =>
      confirmLoop (scriptEnv (pollScript f)) 0 fuel res))) (k + 2, evs)).1 = _
    have hstep : (bindE (emit (.sleepSecs 1)) (fun _ =>
        bindE (call_confirmTransaction (scriptEnv (pollScript f)) 0) (fun res =>
        confirmLoop (scriptEnv (pollScript f)) 0 fuel res))) (k + 2, evs) =
        confirmLoop (scriptEnv (pollScript f)) 0 fuel (f (k + 1))
          ((k + 1) + 2, evs ++ [Event.sleepSecs 1, Event.call (.confirmTransaction 0)]) := by
      simp [bindE, emit, call_confirmTransaction, rpc, scriptEnv, scriptAnswer, pollScript,
        Answer.asBool]
    rw [hstep]
    exact ih (k + 1) _

/-- C1: For every sequence of confirmation-status query responses, the
airdrop confirmation poller returns only after some response reports the
finalized state: it terminates exactly at the first finalized response,
having slept a fixed 1 second before each re-query after a not-finalized
response (the full event trace is `airdropPollEvents`), and when no response
ever reports finalized it never returns, whatever the fuel bound — no
timeout, no maximum-attempt cap, no early return. -/
theorem airdrop_confirmation_poller_spec (f : Nat → Bool) (pk : Pubkey) :
    (∀ fuel n, n ≤ fuel → (∀ m, m < n → f m = false) → f n = true →
      airdrop_new_address (scriptEnv (pollScript f)) pk fuel (0, []) =
        (.ok (), (n + 2, airdropPollEvents pk n))) ∧
    ((∀ n, f n = false) → ∀ fuel,
      (airdrop_new_address (scriptEnv (pollScript f)) pk fuel (0, [])).1 =
        .error .fuel) := by
  have hentry : ∀ (fuel : Nat),
      airdrop_new_address (scriptEnv (pollScript f)) pk fuel (0, []) =
        confirmLoop (scriptEnv (pollScript f)) 0 fuel (f 0)
          (0 + 2, [Event.call (.requestAirdrop pk 1000000000),
                   Event.call (.confirmTransaction 0)]) := by
    intro fuel
    simp [airdrop_new_address, bindE, call_requestAirdrop, call_confirmTransaction, rpc,
      scriptEnv, scriptAnswer, pollScript, Answer.asSig, Answer.asBool]
  constructor
  · intro fuel n hn hfalse htrue
    rw [hentry fuel]
    rw [confirmLoop_pollScript_finds f fuel 0 n _ (Nat.zero_le n) (by omega)
      (fun m _ hm => hfalse m hm) htrue]
    simp [airdropPollEvents]
  · intro hf fuel
    rw [hentry fuel]
    exact confirmLoop_pollScript_unbounded f hf fuel 0 _

/-- Witness for C1: with finalized first reported by the third query the
poller returns after exactly two sleep-and-requery rounds; with responses
that are never finalized it has not returned at fuel 3. -/
theorem airdrop_confirmation_poller_spec_witness :
    airdrop_new_address (scriptEnv (pollScript exPollResponses)) 7 5 (0, []) =
      (.ok (), (4, airdropPollEvents 7 2)) ∧
    (airdrop_new_address (scriptEnv (pollScript exNeverFinalized)) 7 3 (0, [])).1 =
      .error .fuel :=
  ⟨(airdrop_confirmation_poller_spec exPollResponses 7).1 5 2 (by decide)
      (by decide) (by decide),
    (airdrop_confirmation_poller_spec exNeverFinalized 7).2 (fun n => rfl) 3⟩

/-! ### Abort discipline of the provisioning sequence (claim C4)

`ScriptFrag` is proved for each provisioning function by composition: it
holds of the primitive operations and is preserved by `bindE`. -/

/-- Weakening the allowed transaction tags. -/
theorem scriptFrag_mono {script : Script} {t1 t2 : List Nat} {α : Type} {p : M Nat α}
    (hsub : List.Sublist t1 t2) (hp : ScriptFrag script t1 p) :
    ScriptFrag script t2 p := by
  intro n evs res n2 evs2 h
  obtain ⟨d, h1, h2, h3, h4, h5, h6⟩ := hp n evs res n2 evs2 h
  exact ⟨d, h1, h2, h3, h4, h5, h6.trans hsub⟩

/-- `pureE` makes no calls and submits nothing. -/
theorem scriptFrag_pureE (script : Script) (tags : List Nat) {α : Type} (a : α) :
    ScriptFrag script tags (pureE a) := by
  intro n evs res n2 evs2 h
  simp only [pureE, Prod.mk.injEq] at h
  obtain ⟨h1, h2, h3⟩ := h
  refine ⟨[], by simp [h3], by simp [h2, callsOf], ?_, ?_, ?_, ?_⟩
  · intro i hi
    simp [callsOf] at hi
  · intro hres
    rw [← h1] at hres
    simp at hres
  · intro _ i hi
    simp [callsOf] at hi
  · simp [sentTxs]

/-- Lifting a fallible pure computation that cannot produce the RPC error
(an instruction builder or `unpack`) makes no calls and submits nothing. -/
theorem scriptFrag_ofExcept (script : Script) (tags : List Nat) {α : Type}
    (x : Except Err α) (hx : x ≠ Except.error Err.rpc) :
    ScriptFrag script tags (ofExcept x) := by
  intro n evs res n2 evs2 h
  simp only [ofExcept, Prod.mk.injEq] at h
  obtain ⟨h1, h2, h3⟩ := h
  refine ⟨[], by simp [h3], by simp [h2, callsOf], ?_, ?_, ?_, ?_⟩
  · intro i hi
    simp [callsOf] at hi
  · intro hres
    rw [← h1] at hres
    exact absurd hres hx
  · intro _ i hi
    simp [callsOf] at hi
  · simp [sentTxs]

/-- Recording a non-call event (a sleep or a log line) makes no calls and
submits nothing. -/
theorem scriptFrag_emit (script : Script) (tags : List Nat) (ev : Event)
    (hev : eventCall ev = none) :
    ScriptFrag script tags (emit ev) := by
  intro n evs res n2 evs2 h
  simp only [emit, Prod.mk.injEq] at h
  obtain ⟨h1, h2, h3⟩ := h
  have htx : eventSentTx ev = none := by
    cases ev with
    | call c => simp [eventCall] at hev
    | sleepSecs s => rfl
    | logBalance pk ui => rfl
  refine ⟨[ev], by simp [h3], ?_, ?_, ?_, ?_, ?_⟩
  · simp [h2, callsOf, List.filterMap, hev]
  · intro i hi
    simp [callsOf, List.filterMap, hev] at hi
  · intro hres
    rw [← h1] at hres
    simp at hres
  · intro _ i hi
    simp [callsOf, List.filterMap, hev] at hi
  · simp [sentTxs, List.filterMap, htx]

/-- Core of the scripted-call lemmas: one call event is appended, one script
entry is consumed, and the result is the RPC error exactly when that entry
is unanswered. -/
theorem scriptFrag_rpc_core (script : Script) (tags : List Nat) {α : Type}
    (c : RpcCall) (proj : Answer → α)
    (htx : List.Sublist ((sentTxs [Event.call c]).map txShapeTag) tags) :
    ScriptFrag script tags (rpc c (scriptAnswer script proj)) := by
  intro n evs res n2 evs2 h
  have hlen : (callsOf [Event.call c]).length = 1 := by
    simp [callsOf, List.filterMap, eventCall]
  cases hs : script n with
  | some a =>
    have h' : (Except.ok (proj a), (n + 1, evs ++ [Event.call c])) =
        ((res : Except Err α), (n2, evs2)) := by
      rw [← h]
      simp [rpc, scriptAnswer, hs]
    simp only [Prod.mk.injEq] at h'
    obtain ⟨hres, hn, hevs⟩ := h'
    refine ⟨[Event.call c], hevs.symm, by omega, ?_, ?_, ?_, htx⟩
    · intro i hi
      rw [hlen] at hi
      omega
    · intro hr
      rw [← hres] at hr
      simp at hr
    · intro _ i hi
      rw [hlen] at hi
      have hi0 : i = 0 := by omega
      subst hi0
      simp [hs]
  | none =>
    have h' : ((Except.error Err.rpc : Except Err α), (n + 1, evs ++ [Event.call c])) =
        (res, (n2, evs2)) := by
      rw [← h]
      simp [rpc, scriptAnswer, hs]
    simp only [Prod.mk.injEq] at h'
    obtain ⟨hres, hn, hevs⟩ := h'
    refine ⟨[Event.call c], hevs.symm, by omega, ?_, ?_, ?_, htx⟩
    · intro i hi
      rw [hlen] at hi
      omega
    · intro _
      rw [hlen]
      simpa using hs
    · intro hr
      rw [← hres] at hr
      simp at hr

/-- A scripted RPC call that is not a transaction submission. -/
theorem scriptFrag_rpc_nonsend (script : Script) (tags : List Nat) {α : Type}
    (c : RpcCall) (proj : Answer → α)
    (hc : eventSentTx (Event.call c) = none) :
    ScriptFrag script tags (rpc c (scriptAnswer script proj)) := by
  apply scriptFrag_rpc_core
  simp [sentTxs, List.filterMap, hc]

/-- A scripted transaction submission: the submitted transaction's shape tag
must be allowed. -/
theorem scriptFrag_rpc_send (script : Script) {α : Type}
    (tx : Transaction) (proj : Answer → α) :
    ScriptFrag script [txShapeTag tx]
      (rpc (.sendAndConfirmTransaction tx) (scriptAnswer script proj)) := by
  apply scriptFrag_rpc_core
  simp [sentTxs, List.filterMap, eventSentTx]

/-- Sequencing preserves the abort discipline: after a failure of the first
fragment the second contributes nothing, and call indices and submitted
transactions concatenate. -/
theorem scriptFrag_bindE {script : Script} (t1 t2 : List Nat) {α β : Type}
    {p : M Nat α} {f : α → M Nat β}
    (hp : ScriptFrag script t1 p) (hf : ∀ a, ScriptFrag script t2 (f a)) :
    ScriptFrag script (t1 ++ t2) (bindE p f) := by
  intro n evs res n2 evs2 h
  rcases hps : p (n, evs) with ⟨res1, st1⟩
  rcases st1 with ⟨m1, evs1⟩
  obtain ⟨d1, hd1, hn1, hbl1, herr1, hok1, hsub1⟩ := hp n evs res1 m1 evs1 hps
  cases res1 with
  | error e =>
    have heq : (Except.error e, (m1, evs1)) = (res, (n2, evs2)) := by
      rw [← h]
      simp [bindE, hps]
    simp only [Prod.mk.injEq] at heq
    obtain ⟨hres, hm, hevs⟩ := heq
    subst hres hm hevs
    refine ⟨d1, hd1, hn1, hbl1, ?_, ?_, hsub1.trans (List.sublist_append_left t1 t2)⟩
    · intro hrpc
      have he : e = Err.rpc := by
        injection hrpc
      subst he
      exact herr1 rfl
    · intro hrpc i hi
      refine hok1 ?_ i hi
      intro hcontra
      have he : e = Err.rpc := by
        injection hcontra
      subst he
      exact hrpc rfl
  | ok a =>
    have heq : f a (m1, evs1) = (res, (n2, evs2)) := by
      rw [← h]
      simp [bindE, hps]
    obtain ⟨d2, hd2, hn2, hbl2, herr2, hok2, hsub2⟩ := hf a m1 evs1 res n2 evs2 heq
    have hok1a : ∀ i, i < (callsOf d1).length → (script (n + i)).isSome = true :=
      hok1 (by simp)
    have hcat : (callsOf (d1 ++ d2)).length = (callsOf d1).length + (callsOf d2).length := by
      simp [callsOf]
    have hsent : sentTxs (d1 ++ d2) = sentTxs d1 ++ sentTxs d2 := by
      simp [sentTxs]
    refine ⟨d1 ++ d2, ?_, ?_, ?_, ?_, ?_, ?_⟩
    · rw [hd2, hd1, List.append_assoc]
    · omega
    · intro i hi
      rw [hcat] at hi
      by_cases hcase : i < (callsOf d1).length
      · exact hok1a i hcase
      · have hj : i - (callsOf d1).length + 1 < (callsOf d2).length := by
          omega
        have hstep := hbl2 (i - (callsOf d1).length) hj
        have harith : m1 + (i - (callsOf d1).length) = n + i := by
          omega
        rw [harith] at hstep
        exact hstep
    · intro hrpc
      obtain ⟨hpos2, hnone2⟩ := herr2 hrpc
      refine ⟨by omega, ?_⟩
      have harith : n + (callsOf (d1 ++ d2)).length - 1 =
          m1 + (callsOf d2).length - 1 := by
        omega
      rw [harith]
      exact hnone2
    · intro hrpc i hi
      rw [hcat] at hi
      by_cases hcase : i < (callsOf d1).length
      · exact hok1a i hcase
      · have hj : i - (callsOf d1).length < (callsOf d2).length := by
          omega
        have hstep := hok2 hrpc (i - (callsOf d1).length) hj
        have harith : m1 + (i - (callsOf d1).length) = n + i := by
          omega
        rw [harith] at hstep
        exact hstep
    · rw [hsent, List.map_append]
      exact List.Sublist.append hsub1 hsub2

/-- Lifting a successful pure computation. -/
theorem scriptFrag_ofExcept_ok (script : Script) (tags : List Nat) {α : Type} (a : α) :
    ScriptFrag script tags (ofExcept (Except.ok a)) := by
  apply scriptFrag_ofExcept
  simp

/-- Binding a builder that succeeds with a known value: the sequel runs with
that value. -/
theorem scriptFrag_bindE_builderOk {script : Script} (tags : List Nat) {α β : Type}
    {x : Except Err α} {a : α} (hx : x = Except.ok a) {f : α → M Nat β}
    (hf : ScriptFrag script tags (f a)) :
    ScriptFrag script tags (bindE (ofExcept x) f) := by
  subst hx
  intro n evs res n2 evs2 h
  exact hf n evs res n2 evs2 h

/-- `TokenAccount::unpack` can fail, but never with the RPC error. -/
theorem scriptFrag_unpack (script : Script) (tags : List Nat) (d : AccountData) :
    ScriptFrag script tags (ofExcept (TokenAccount_unpack d)) := by
  apply scriptFrag_ofExcept
  cases d <;> simp [TokenAccount_unpack]

/-- The confirmation loop only queries: no transaction is submitted. -/
theorem scriptFrag_confirmLoop (script : Script) (sig : Sig) :
    ∀ (fuel : Nat) (b : Bool),
    ScriptFrag script [] (confirmLoop (scriptEnv script) sig fuel b) := by
  intro fuel
  induction fuel with
  | zero =>
    intro b
    cases b
    · exact scriptFrag_ofExcept script [] (Except.error Err.fuel) (by simp)
    · exact scriptFrag_pureE script [] ()
  | succ fuel ih =>
    intro b
    cases b
    · exact scriptFrag_bindE [] [] (scriptFrag_emit script [] (.sleepSecs 1) rfl)
        (fun _ => scriptFrag_bindE [] []
          (scriptFrag_rpc_nonsend script [] (.confirmTransaction sig) Answer.asBool rfl)
          (fun res => ih res))
    · exact scriptFrag_pureE script [] ()

/-- `airdrop_new_address` only requests and queries: no submission. -/
theorem scriptFrag_airdrop_new_address (script : Script) (pk : Pubkey) (fuel : Nat) :
    ScriptFrag script [] (airdrop_new_address (scriptEnv script) pk fuel) := by
  unfold airdrop_new_address
  exact scriptFrag_bindE [] []
    (scriptFrag_rpc_nonsend script [] (.requestAirdrop pk 1000000000) Answer.asSig rfl)
    (fun sig => scriptFrag_bindE [] []
      (scriptFrag_rpc_nonsend script [] (.confirmTransaction sig) Answer.asBool rfl)
      (fun res => scriptFrag_confirmLoop script sig fuel res))

/-- `create_mint` submits exactly one transaction, of the mint-creation
shape. -/
theorem scriptFrag_create_mint (script : Script) (mintk kp : Pubkey) :
    ScriptFrag script [0] (create_mint (scriptEnv script) mintk kp) := by
  unfold create_mint
  exact scriptFrag_bindE [] [0]
    (scriptFrag_rpc_nonsend script [] (.getMinimumBalanceForRentExemption Mint_LEN)
      Answer.asNat rfl)
    (fun rent => scriptFrag_bindE [] [0]
      (scriptFrag_ofExcept_ok script []
        (Instruction.initializeMint spl_token_2022_id mintk kp none 6))
      (fun ix => scriptFrag_bindE [] [0]
        (scriptFrag_rpc_nonsend script [] .getLatestBlockhash Answer.asHash rfl)
        (fun bh => scriptFrag_bindE [0] []
          (scriptFrag_rpc_send script _ Answer.asSig)
          (fun _ => scriptFrag_pureE script [] ()))))

/-- `create_token_accounts` submits exactly one transaction, of the
four-instruction token-accounts shape. -/
theorem scriptFrag_create_token_accounts (script : Script)
    (payer mintPk ta1 ta2 : Pubkey) :
    ScriptFrag script [1] (create_token_accounts (scriptEnv script) payer mintPk ta1 ta2) := by
  unfold create_token_accounts
  exact scriptFrag_bindE [] [1]
    (scriptFrag_rpc_nonsend script [] (.getMinimumBalanceForRentExemption TokenAccount_LEN)
      Answer.asNat rfl)
    (fun rent => scriptFrag_bindE [] [1]
      (scriptFrag_ofExcept_ok script []
        (Instruction.initializeAccount spl_token_2022_id ta1 mintPk payer))
      (fun ix1 => scriptFrag_bindE [] [1]
        (scriptFrag_ofExcept_ok script []
          (Instruction.initializeAccount spl_token_2022_id ta2 mintPk payer))
        (fun ix2 => scriptFrag_bindE [] [1]
          (scriptFrag_rpc_nonsend script [] .getLatestBlockhash Answer.asHash rfl)
          (fun bh => scriptFrag_bindE [1] []
            (scriptFrag_rpc_send script _ Answer.asSig)
            (fun _ => scriptFrag_pureE script [] (ta1, ta2))))))

/-- `mint_to` submits exactly one transaction, of the mint-to shape. -/
theorem scriptFrag_mint_to (script : Script) (payer mintPk dest : Pubkey) (amount : Nat) :
    ScriptFrag script [2] (mint_to (scriptEnv script) payer mintPk dest amount) := by
  unfold mint_to
  exact scriptFrag_bindE_builderOk [2] rfl
    (scriptFrag_bindE [] [2]
      (scriptFrag_rpc_nonsend script [] .getLatestBlockhash Answer.asHash rfl)
      (fun bh => scriptFrag_bindE [2] []
        (scriptFrag_rpc_send script
          (Transaction.new_signed_with_payer
            [Instruction.mintToIx spl_token_2022_id mintPk dest payer amount]
            (some payer) [payer] bh) Answer.asSig)
        (fun _ => scriptFrag_pureE script [] ())))

/-- `fetch_token_balance` only fetches and unpacks: no submission. -/
theorem scriptFrag_fetch_token_balance (script : Script) (pk : Pubkey) :
    ScriptFrag script [] (fetch_token_balance (scriptEnv script) pk) := by
  unfold fetch_token_balance
  exact scriptFrag_bindE [] []
    (scriptFrag_rpc_nonsend script [] (.getAccount pk) Answer.asAccount rfl)
    (fun d => scriptFrag_unpack script [] d)

/-- The full provisioning sequence obeys the abort discipline and submits
transactions whose shape tags form a sublist of the four expected shapes. -/
theorem scriptFrag_airdrop_and_mint_token (script : Script)
    (kp mintk ta1 ta2 : Pubkey) (fuel : Nat) :
    ScriptFrag script [0, 1, 2, 3]
      (airdrop_and_mint_token (scriptEnv script) kp mintk ta1 ta2 fuel) := by
  unfold airdrop_and_mint_token
  exact scriptFrag_bindE [] [0, 1, 2, 3]
    (scriptFrag_airdrop_new_address script kp fuel)
    (fun _ => scriptFrag_bindE [0] [1, 2, 3]
      (scriptFrag_create_mint script mintk kp)
      (fun _ => scriptFrag_bindE [1] [2, 3]
        (scriptFrag_create_token_accounts script kp mintk ta1 ta2)
        (fun pks => scriptFrag_bindE [2] [3]
          (scriptFrag_mint_to script kp mintk pks.1 10000000000)
          (fun _ => scriptFrag_bindE [] [3]
            (scriptFrag_fetch_token_balance script pks.1)
            (fun balance => scriptFrag_bindE [] [3]
              (scriptFrag_emit script []
                (.logBalance pks.1 (amount_to_ui_amount_string balance 6)) rfl)
              (fun _ => scriptFrag_bindE [] [3]
                (scriptFrag_fetch_token_balance script pks.2)
                (fun balance2 => scriptFrag_bindE [] [3]
                  (scriptFrag_emit script []
                    (.logBalance pks.2 (amount_to_ui_amount_string balance2 6)) rfl)
                  (fun _ => scriptFrag_bindE_builderOk [3] rfl
                    (scriptFrag_bindE [] [3]
                      (scriptFrag_rpc_nonsend script [] .getLatestBlockhash Answer.asHash rfl)
                      (fun bh => scriptFrag_bindE [3] []
                        (scriptFrag_rpc_send script
                          (Transaction.new_signed_with_payer
                            [Instruction.transferCheckedIx spl_token_2022_id pks.1 mintk pks.2
                              kp 1000000000 6]
                            (some kp) [kp] bh) Answer.asSig)
                        (fun _ => scriptFrag_bindE [] []
                        (scriptFrag_fetch_token_balance script pks.1)
                        (fun balance3 => scriptFrag_bindE [] []
                          (scriptFrag_emit script []
                            (.logBalance pks.1 (amount_to_ui_amount_string balance3 6)) rfl)
                          (fun _ => scriptFrag_bindE [] []
                            (scriptFrag_fetch_token_balance script pks.2)
                            (fun balance4 => scriptFrag_bindE [] []
                              (scriptFrag_emit script []
                                (.logBalance pks.2
                                  (amount_to_ui_amount_string balance4 6)) rfl)
                              (fun _ => scriptFrag_pureE script [] ())))))))))))))))

/-- One scripted step of `airdrop_new_address`: with the airdrop request
answered and the first confirmation query reporting finalized, it consumes
two script entries. -/
theorem bindE_script_airdrop (s : Script) (kp : Pubkey) (fuel : Nat) (n : Nat) (g0 : Sig)
    (h0 : s n = some (.sig g0)) (h1 : s (n + 1) = some (.bool true))
    {β : Type} (f : Unit → M Nat β) (evs : List Event) :
    bindE (airdrop_new_address (scriptEnv s) kp fuel) f (n, evs) =
      f () (n + 2, evs ++ [Event.call (.requestAirdrop kp 1000000000),
        Event.call (.confirmTransaction g0)]) := by
  have h : airdrop_new_address (scriptEnv s) kp fuel (n, evs) =
      (.ok (), (n + 2, evs ++ [Event.call (.requestAirdrop kp 1000000000),
        Event.call (.confirmTransaction g0)])) := by
    norm_num [airdrop_new_address, confirmLoop, bindE, pureE, call_requestAirdrop,
      call_confirmTransaction, rpc, scriptEnv, scriptAnswer, h0, h1,
      Answer.asSig, Answer.asBool]
  simp [bindE, h]

/-- One scripted step of `create_mint`: rent, blockhash and submission
answered, consuming three script entries and submitting the two-instruction
mint-creation transaction. -/
theorem bindE_script_create_mint (s : Script) (mintk kp : Pubkey) (n : Nat)
    (r b : Nat) (g : Sig)
    (hr : s n = some (.nat r)) (hb : s (n + 1) = some (.hash b))
    (hg : s (n + 2) = some (.sig g))
    {β : Type} (f : Unit → M Nat β) (evs : List Event) :
    bindE (create_mint (scriptEnv s) mintk kp) f (n, evs) =
      f () (n + 3, evs ++
        [Event.call (.getMinimumBalanceForRentExemption 82),
         Event.call .getLatestBlockhash,
         Event.call (.sendAndConfirmTransaction
           ⟨[Instruction.createAccount kp mintk r 82 spl_token_2022_id,
             Instruction.initializeMint spl_token_2022_id mintk kp none 6],
            some kp, [kp, mintk], b⟩)]) := by
  have h : create_mint (scriptEnv s) mintk kp (n, evs) =
      (.ok (), (n + 3, evs ++
        [Event.call (.getMinimumBalanceForRentExemption 82),
         Event.call .getLatestBlockhash,
         Event.call (.sendAndConfirmTransaction
           ⟨[Instruction.createAccount kp mintk r 82 spl_token_2022_id,
             Instruction.initializeMint spl_token_2022_id mintk kp none 6],
            some kp, [kp, mintk], b⟩)])) := by
    norm_num [create_mint, bindE, pureE, ofExcept, call_getMinimumBalanceForRentExemption,
      call_getLatestBlockhash, call_sendAndConfirmTransaction, rpc, scriptEnv, scriptAnswer,
      hr, hb, hg, Answer.asNat, Answer.asHash, Answer.asSig, Spl.initialize_mint,
      check_program_account, spl_token_2022_id, system_create_account,
      Transaction.new_signed_with_payer, Mint_LEN]
  simp [bindE, h]

/-- One scripted step of `create_token_accounts`: three script entries
consumed, submitting the four-instruction token-accounts transaction and
returning the two account keys. -/
theorem bindE_script_create_accounts (s : Script) (payer mintPk ta1 ta2 : Pubkey) (n : Nat)
    (r b : Nat) (g : Sig)
    (hr : s n = some (.nat r)) (hb : s (n + 1) = some (.hash b))
    (hg : s (n + 2) = some (.sig g))
    {β : Type} (f : Pubkey × Pubkey → M Nat β) (evs : List Event) :
    bindE (create_token_accounts (scriptEnv s) payer mintPk ta1 ta2) f (n, evs) =
      f (ta1, ta2) (n + 3, evs ++
        [Event.call (.getMinimumBalanceForRentExemption 165),
         Event.call .getLatestBlockhash,
         Event.call (.sendAndConfirmTransaction
           ⟨[Instruction.createAccount payer ta1 r 165 spl_token_2022_id,
             Instruction.initializeAccount spl_token_2022_id ta1 mintPk payer,
             Instruction.createAccount payer ta2 r 165 spl_token_2022_id,
             Instruction.initializeAccount spl_token_2022_id ta2 mintPk payer],
            some payer, [payer, ta1, ta2], b⟩)]) := by
  have h : create_token_accounts (scriptEnv s) payer mintPk ta1 ta2 (n, evs) =
      (.ok (ta1, ta2), (n + 3, evs ++
        [Event.call (.getMinimumBalanceForRentExemption 165),
         Event.call .getLatestBlockhash,
         Event.call (.sendAndConfirmTransaction
           ⟨[Instruction.createAccount payer ta1 r 165 spl_token_2022_id,
             Instruction.initializeAccount spl_token_2022_id ta1 mintPk payer,
             Instruction.createAccount payer ta2 r 165 spl_token_2022_id,
             Instruction.initializeAccount spl_token_2022_id ta2 mintPk payer],
            some payer, [payer, ta1, ta2], b⟩)])) := by
    norm_num [create_token_accounts, bindE, pureE, ofExcept,
      call_getMinimumBalanceForRentExemption, call_getLatestBlockhash,
      call_sendAndConfirmTransaction, rpc, scriptEnv, scriptAnswer,
      hr, hb, hg, Answer.asNat, Answer.asHash, Answer.asSig, Spl.initialize_account,
      check_program_account, spl_token_2022_id, system_create_account,
      Transaction.new_signed_with_payer, TokenAccount_LEN]
  simp [bindE, h]

/-- One scripted step of `mint_to`: two script entries consumed, submitting
the single-instruction mint-to transaction. -/
theorem bindE_script_mint_to (s : Script) (payer mintPk dest : Pubkey) (amount : Nat)
    (n : Nat) (b : Nat) (g : Sig)
    (hb : s n = some (.hash b)) (hg : s (n + 1) = some (.sig g))
    {β : Type} (f : Unit → M Nat β) (evs : List Event) :
    bindE (mint_to (scriptEnv s) payer mintPk dest amount) f (n, evs) =
      f () (n + 2, evs ++
        [Event.call .getLatestBlockhash,
         Event.call (.sendAndConfirmTransaction
           ⟨[Instruction.mintToIx spl_token_2022_id mintPk dest payer amount],
            some payer, [payer], b⟩)]) := by
  have h : mint_to (scriptEnv s) payer mintPk dest amount (n, evs) =
      (.ok (), (n + 2, evs ++
        [Event.call .getLatestBlockhash,
         Event.call (.sendAndConfirmTransaction
           ⟨[Instruction.mintToIx spl_token_2022_id mintPk dest payer amount],
            some payer, [payer], b⟩)])) := by
    norm_num [mint_to, bindE, pureE, ofExcept, call_getLatestBlockhash,
      call_sendAndConfirmTransaction, rpc, scriptEnv, scriptAnswer, hb, hg,
      Answer.asHash, Answer.asSig, Spl.mint_to, check_program_account,
      spl_token_2022_id, Transaction.new_signed_with_payer]
  simp [bindE, h]

/-- A balance read whose fetched account data fails `TokenAccount::unpack`
aborts right there: the whole sequel is discarded, only the one `getAccount`
call is added, and the unpack error is the result. -/
theorem bindE_script_fetch_fail (s : Script) (pk : Pubkey) (n : Nat)
    (h : s n = some (.account none))
    {β : Type} (f : Nat → M Nat β) (evs : List Event) :
    bindE (fetch_token_balance (scriptEnv s) pk) f (n, evs) =
      ((.error .unpack : Except Err β), (n + 1, evs ++ [Event.call (.getAccount pk)])) := by
  have hfetch : fetch_token_balance (scriptEnv s) pk (n, evs) =
      (.error .unpack, (n + 1, evs ++ [Event.call (.getAccount pk)])) := by
    norm_num [fetch_token_balance, bindE, ofExcept, call_getAccount, rpc, scriptEnv,
      scriptAnswer, h, Answer.asAccount, TokenAccount_unpack]
  simp [bindE, hfetch]

/-- C4: Any failure aborts the entire remaining provisioning sequence.
First, for every scripted RPC behavior: every call except possibly the last
one in the trace got an answered script entry (so nothing runs after an RPC
failure), the run ends in the RPC error exactly when the last consumed entry
was unanswered, the task reports that single error value, and no submitted
transaction is ever repeated (no retry of a completed step).  Second, for an
account-data decode failure: whenever the calls are answered and the first
balance read returns data that fails `TokenAccount::unpack`, the run stops
at exactly that read — eleven calls in total, the transfer and the remaining
balance reads never issued — reporting the single unpack error. -/
theorem failure_aborts_sequence_spec (script : Script) (kp mintk ta1 ta2 : Pubkey)
    (fuel : Nat) :
    (∀ (res : Except Err Unit) (n2 : Nat) (evs : List Event),
      airdrop_and_mint_token (scriptEnv script) kp mintk ta1 ta2 fuel (0, []) =
        (res, (n2, evs)) →
      (∀ i, i + 1 < (callsOf evs).length → (script i).isSome = true) ∧
      (res = .error .rpc →
        0 < (callsOf evs).length ∧ script ((callsOf evs).length - 1) = none) ∧
      (res ≠ .error .rpc → ∀ i, i < (callsOf evs).length → (script i).isSome = true) ∧
      n2 = (callsOf evs).length ∧
      (sentTxs evs).Nodup) ∧
    (∀ (g0 : Sig) (r1 b1 : Nat) (g1 : Sig) (r2 b2 : Nat) (g2 : Sig) (b3 : Nat) (g3 : Sig),
      script 0 = some (.sig g0) → script 1 = some (.bool true) →
      script 2 = some (.nat r1) → script 3 = some (.hash b1) →
      script 4 = some (.sig g1) → script 5 = some (.nat r2) →
      script 6 = some (.hash b2) → script 7 = some (.sig g2) →
      script 8 = some (.hash b3) → script 9 = some (.sig g3) →
      script 10 = some (.account none) →
      airdrop_and_mint_token (scriptEnv script) kp mintk ta1 ta2 fuel (0, []) =
        (.error .unpack, (11,
          [Event.call (.requestAirdrop kp 1000000000),
           Event.call (.confirmTransaction g0),
           Event.call (.getMinimumBalanceForRentExemption 82),
           Event.call .getLatestBlockhash,
           Event.call (.sendAndConfirmTransaction
             ⟨[Instruction.createAccount kp mintk r1 82 spl_token_2022_id,
               Instruction.initializeMint spl_token_2022_id mintk kp none 6],
              some kp, [kp, mintk], b1⟩),
           Event.call (.getMinimumBalanceForRentExemption 165),
           Event.call .getLatestBlockhash,
           Event.call (.sendAndConfirmTransaction
             ⟨[Instruction.createAccount kp ta1 r2 165 spl_token_2022_id,
               Instruction.initializeAccount spl_token_2022_id ta1 mintk kp,
               Instruction.createAccount kp ta2 r2 165 spl_token_2022_id,
               Instruction.initializeAccount spl_token_2022_id ta2 mintk kp],
              some kp, [kp, ta1, ta2], b2⟩),
           Event.call .getLatestBlockhash,
           Event.call (.sendAndConfirmTransaction
             ⟨[Instruction.mintToIx spl_token_2022_id mintk ta1 kp 10000000000],
              some kp, [kp], b3⟩),
           Event.call (.getAccount ta1)]))) := by
  constructor
  · intro res n2 evs h
    obtain ⟨d, hd, hn, hbl, herr, hok, hsub⟩ :=
      scriptFrag_airdrop_and_mint_token script kp mintk ta1 ta2 fuel 0 [] res n2 evs h
    rw [List.nil_append] at hd
    subst hd
    refine ⟨?_, ?_, ?_, by omega, ?_⟩
    · intro i hi
      simpa using hbl i hi
    · intro hrpc
      obtain ⟨h1, h2⟩ := herr hrpc
      exact ⟨h1, by simpa using h2⟩
    · intro hrpc i hi
      simpa using hok hrpc i hi
    · have hnodup4 : ([0, 1, 2, 3] : List Nat).Nodup := by decide
      exact List.Nodup.of_map txShapeTag (List.Nodup.sublist hsub hnodup4)
  · intro g0 r1 b1 g1 r2 b2 g2 b3 g3 h0 h1 h2 h3 h4 h5 h6 h7 h8 h9 h10
    simp [airdrop_and_mint_token,
      bindE_script_airdrop script kp fuel 0 g0 h0 h1,
      bindE_script_create_mint script mintk kp 2 r1 b1 g1 h2 h3 h4,
      bindE_script_create_accounts script kp mintk ta1 ta2 5 r2 b2 g2 h5 h6 h7,
      bindE_script_mint_to script kp mintk ta1 10000000000 8 b3 g3 h8 h9,
      bindE_script_fetch_fail script ta1 10 h10]

/-- Witness for C4: a script whose fourth call fails makes the run stop
right there with the RPC error, all earlier calls answered and no
transaction submitted twice; a script whose eleventh call returns
undecodable account data makes the run stop at that balance read with the
unpack error, the transfer never submitted. -/
theorem failure_aborts_sequence_spec_witness :
    (0 < (callsOf exFailEvents).length ∧
      exFailScript ((callsOf exFailEvents).length - 1) = none) ∧
    (∀ i, i + 1 < (callsOf exFailEvents).length → (exFailScript i).isSome = true) ∧
    (sentTxs exFailEvents).Nodup ∧
    airdrop_and_mint_token (scriptEnv exUnpackScript) 0 1 2 3 5 (0, []) =
      (.error .unpack, (11, exUnpackEvents)) := by
  have h1 := (failure_aborts_sequence_spec exFailScript 0 1 2 3 5).1
    (.error .rpc) 4 exFailEvents rfl
  have h2 := (failure_aborts_sequence_spec exUnpackScript 0 1 2 3 5).2
    0 50 7 0 60 7 0 7 0 rfl rfl rfl rfl rfl rfl rfl rfl rfl rfl rfl
  refine ⟨h1.2.1 rfl, h1.1, h1.2.2.2.2, ?_⟩
  rw [h2]
  rfl

/-! ### The faithful run (claims C3 and C7)

The run under `faithfulEnv` is computed phase by phase; each lemma rewrites
one provisioning step applied to its concrete input ledger. -/

/-- Phase 1: the airdrop is requested and confirmed at once (the faithful
validator finalizes immediately). -/
theorem bindE_airdrop_phase (kp : Pubkey) (fuel : Nat) {β : Type} (f : Unit → M World β)
    (evs : List Event) :
    bindE (airdrop_new_address faithfulEnv kp fuel) f (World.empty, evs) =
      f () (fw1 kp, evs ++ [Event.call (.requestAirdrop kp 1000000000),
        Event.call (.confirmTransaction 0)]) := by
  have h : airdrop_new_address faithfulEnv kp fuel (World.empty, evs) =
      (.ok (), (fw1 kp, evs ++ [Event.call (.requestAirdrop kp 1000000000),
        Event.call (.confirmTransaction 0)])) := by
    norm_num [airdrop_new_address, confirmLoop, bindE, pureE, call_requestAirdrop,
      call_confirmTransaction, rpc, faithfulEnv, World.empty, World.bal, alookup, aset, fw1]
  simp [bindE, h]

/-- Phase 2: mint creation transforms `fw1` into `fw2` and submits the
mint-creation transaction. -/
theorem bindE_create_mint_phase (kp mintk : Pubkey) (h1 : kp ≠ mintk) {β : Type}
    (f : Unit → M World β) (evs : List Event) :
    bindE (create_mint faithfulEnv mintk kp) f (fw1 kp, evs) =
      f () (fw2 kp mintk, evs ++
        [Event.call (.getMinimumBalanceForRentExemption 82),
         Event.call .getLatestBlockhash,
         Event.call (.sendAndConfirmTransaction (mintTxOf kp mintk))]) := by
  have h : create_mint faithfulEnv mintk kp (fw1 kp, evs) =
      (.ok (), (fw2 kp mintk, evs ++
        [Event.call (.getMinimumBalanceForRentExemption 82),
         Event.call .getLatestBlockhash,
         Event.call (.sendAndConfirmTransaction (mintTxOf kp mintk))])) := by
    norm_num [create_mint, bindE, pureE, ofExcept, call_getMinimumBalanceForRentExemption,
      call_getLatestBlockhash, call_sendAndConfirmTransaction, rpc, faithfulEnv,
      applyTx, applyInstruction, alookup, aset, World.bal, fw1, fw2, Spl.initialize_mint,
      check_program_account, system_create_account, Transaction.new_signed_with_payer,
      Mint_LEN, rentFor, spl_token_2022_id, mintTxOf, TokenAcct.amount, TokenAcct.mint,
      TokenAcct.owner, MintState.mintAuthority, MintState.decimals, MintState.supply,
      World.lamports, World.mints, World.tokenAccts, h1, Ne.symm h1]
  simp [bindE, h]

/-- Phase 3: token-account creation transforms `fw2` into `fw3` and submits
the four-instruction transaction; it returns the two account keys. -/
theorem bindE_create_accounts_phase (kp mintk ta1 ta2 : Pubkey)
    (h2 : kp ≠ ta1) (h3 : kp ≠ ta2) (h4 : mintk ≠ ta1) (h5 : mintk ≠ ta2) (h6 : ta1 ≠ ta2)
    {β : Type} (f : Pubkey × Pubkey → M World β) (evs : List Event) :
    bindE (create_token_accounts faithfulEnv kp mintk ta1 ta2) f (fw2 kp mintk, evs) =
      f (ta1, ta2) (fw3 kp mintk ta1 ta2, evs ++
        [Event.call (.getMinimumBalanceForRentExemption 165),
         Event.call .getLatestBlockhash,
         Event.call (.sendAndConfirmTransaction (accountsTxOf kp mintk ta1 ta2))]) := by
  have h : create_token_accounts faithfulEnv kp mintk ta1 ta2 (fw2 kp mintk, evs) =
      (.ok (ta1, ta2), (fw3 kp mintk ta1 ta2, evs ++
        [Event.call (.getMinimumBalanceForRentExemption 165),
         Event.call .getLatestBlockhash,
         Event.call (.sendAndConfirmTransaction (accountsTxOf kp mintk ta1 ta2))])) := by
    norm_num [create_token_accounts, bindE, pureE, ofExcept,
      call_getMinimumBalanceForRentExemption, call_getLatestBlockhash,
      call_sendAndConfirmTransaction, rpc, faithfulEnv, applyTx, applyInstruction,
      alookup, aset, World.bal, fw2, fw3, Spl.initialize_account, check_program_account,
      system_create_account, Transaction.new_signed_with_payer, TokenAccount_LEN, rentFor,
      spl_token_2022_id, accountsTxOf, TokenAcct.amount, TokenAcct.mint, TokenAcct.owner,
      MintState.mintAuthority, MintState.decimals, MintState.supply, World.lamports,
      World.mints, World.tokenAccts, h2, h3, h4, h5, h6,
      Ne.symm h2, Ne.symm h3, Ne.symm h4, Ne.symm h5, Ne.symm h6]
  simp [bindE, h]

/-- Phase 4: minting the initial supply transforms `fw3` into `fw4` and
submits the mint-to transaction. -/
theorem bindE_mint_to_phase (kp mintk ta1 ta2 : Pubkey) {β : Type}
    (f : Unit → M World β) (evs : List Event) :
    bindE (mint_to faithfulEnv kp mintk ta1 10000000000) f (fw3 kp mintk ta1 ta2, evs) =
      f () (fw4 kp mintk ta1 ta2, evs ++
        [Event.call .getLatestBlockhash,
         Event.call (.sendAndConfirmTransaction (mintToTxOf kp mintk ta1))]) := by
  have h : mint_to faithfulEnv kp mintk ta1 10000000000 (fw3 kp mintk ta1 ta2, evs) =
      (.ok (), (fw4 kp mintk ta1 ta2, evs ++
        [Event.call .getLatestBlockhash,
         Event.call (.sendAndConfirmTransaction (mintToTxOf kp mintk ta1))])) := by
    norm_num [mint_to, bindE, pureE, ofExcept, call_getLatestBlockhash,
      call_sendAndConfirmTransaction, rpc, faithfulEnv, applyTx, applyInstruction,
      alookup, aset, World.bal, fw3, fw4, Spl.mint_to, check_program_account,
      Transaction.new_signed_with_payer, spl_token_2022_id, mintToTxOf,
      TokenAcct.amount, TokenAcct.mint, TokenAcct.owner, MintState.mintAuthority,
      MintState.decimals, MintState.supply, World.lamports, World.mints, World.tokenAccts]
  simp [bindE, h]

/-- Reading account 1 after the mint reports 10,000,000,000 base units. -/
theorem bindE_fetch_fw4_ta1 (kp mintk ta1 ta2 : Pubkey) {β : Type}
    (f : Nat → M World β) (evs : List Event) :
    bindE (fetch_token_balance faithfulEnv ta1) f (fw4 kp mintk ta1 ta2, evs) =
      f 10000000000 (fw4 kp mintk ta1 ta2, evs ++ [Event.call (.getAccount ta1)]) := by
  have h : fetch_token_balance faithfulEnv ta1 (fw4 kp mintk ta1 ta2, evs) =
      (.ok 10000000000, (fw4 kp mintk ta1 ta2, evs ++ [Event.call (.getAccount ta1)])) := by
    norm_num [fetch_token_balance, bindE, ofExcept, call_getAccount, rpc, faithfulEnv,
      alookup, fw4, TokenAccount_unpack, TokenAcct.amount, World.tokenAccts]
  simp [bindE, h]

/-- Reading account 2 after the mint reports 0 base units. -/
theorem bindE_fetch_fw4_ta2 (kp mintk ta1 ta2 : Pubkey) (h6 : ta1 ≠ ta2) {β : Type}
    (f : Nat → M World β) (evs : List Event) :
    bindE (fetch_token_balance faithfulEnv ta2) f (fw4 kp mintk ta1 ta2, evs) =
      f 0 (fw4 kp mintk ta1 ta2, evs ++ [Event.call (.getAccount ta2)]) := by
  have h : fetch_token_balance faithfulEnv ta2 (fw4 kp mintk ta1 ta2, evs) =
      (.ok 0, (fw4 kp mintk ta1 ta2, evs ++ [Event.call (.getAccount ta2)])) := by
    norm_num [fetch_token_balance, bindE, ofExcept, call_getAccount, rpc, faithfulEnv,
      alookup, fw4, TokenAccount_unpack, TokenAcct.amount, World.tokenAccts, h6]
  simp [bindE, h]

/-- Submitting the checked transfer moves 1,000,000,000 base units from
account 1 to account 2, transforming `fw4` into the final ledger. -/
theorem bindE_send_transfer_phase (kp mintk ta1 ta2 : Pubkey) (h6 : ta1 ≠ ta2) {β : Type}
    (f : Sig → M World β) (evs : List Event) :
    bindE (call_sendAndConfirmTransaction faithfulEnv
        ⟨[Instruction.transferCheckedIx spl_token_2022_id ta1 mintk ta2 kp 1000000000 6],
         some kp, [kp], 0⟩) f (fw4 kp mintk ta1 ta2, evs) =
      f 0 (faithfulFinalWorld kp mintk ta1 ta2, evs ++
        [Event.call (.sendAndConfirmTransaction (transferTxOf kp mintk ta1 ta2))]) := by
  have h : call_sendAndConfirmTransaction faithfulEnv
      ⟨[Instruction.transferCheckedIx spl_token_2022_id ta1 mintk ta2 kp 1000000000 6],
       some kp, [kp], 0⟩ (fw4 kp mintk ta1 ta2, evs) =
      (.ok 0, (faithfulFinalWorld kp mintk ta1 ta2, evs ++
        [Event.call (.sendAndConfirmTransaction (transferTxOf kp mintk ta1 ta2))])) := by
    norm_num [call_sendAndConfirmTransaction, rpc, faithfulEnv, applyTx, applyInstruction,
      alookup, aset, World.bal, fw4, faithfulFinalWorld, transferTxOf, spl_token_2022_id,
      TokenAcct.amount, TokenAcct.mint, TokenAcct.owner, MintState.mintAuthority,
      MintState.decimals, MintState.supply, World.lamports, World.mints, World.tokenAccts,
      h6, Ne.symm h6]
  simp [bindE, h]

/-- Reading account 1 after the transfer reports 9,000,000,000 base units. -/
theorem bindE_fetch_final_ta1 (kp mintk ta1 ta2 : Pubkey) {β : Type}
    (f : Nat → M World β) (evs : List Event) :
    bindE (fetch_token_balance faithfulEnv ta1) f (faithfulFinalWorld kp mintk ta1 ta2, evs) =
      f 9000000000 (faithfulFinalWorld kp mintk ta1 ta2,
        evs ++ [Event.call (.getAccount ta1)]) := by
  have h : fetch_token_balance faithfulEnv ta1 (faithfulFinalWorld kp mintk ta1 ta2, evs) =
      (.ok 9000000000, (faithfulFinalWorld kp mintk ta1 ta2,
        evs ++ [Event.call (.getAccount ta1)])) := by
    norm_num [fetch_token_balance, bindE, ofExcept, call_getAccount, rpc, faithfulEnv,
      alookup, faithfulFinalWorld, TokenAccount_unpack, TokenAcct.amount, World.tokenAccts]
  simp [bindE, h]

/-- Reading account 2 after the transfer reports 1,000,000,000 base units. -/
theorem bindE_fetch_final_ta2 (kp mintk ta1 ta2 : Pubkey) (h6 : ta1 ≠ ta2) {β : Type}
    (f : Nat → M World β) (evs : List Event) :
    bindE (fetch_token_balance faithfulEnv ta2) f (faithfulFinalWorld kp mintk ta1 ta2, evs) =
      f 1000000000 (faithfulFinalWorld kp mintk ta1 ta2,
        evs ++ [Event.call (.getAccount ta2)]) := by
  have h : fetch_token_balance faithfulEnv ta2 (faithfulFinalWorld kp mintk ta1 ta2, evs) =
      (.ok 1000000000, (faithfulFinalWorld kp mintk ta1 ta2,
        evs ++ [Event.call (.getAccount ta2)])) := by
    norm_num [fetch_token_balance, bindE, ofExcept, call_getAccount, rpc, faithfulEnv,
      alookup, faithfulFinalWorld, TokenAccount_unpack, TokenAcct.amount, World.tokenAccts,
      h6]
  simp [bindE, h]

/-- Recording a log line or a sleep just appends the event. -/
theorem bindE_emit_step {S β : Type} (ev : Event) (f : Unit → M S β) (s : S)
    (evs : List Event) :
    bindE (emit ev) f (s, evs) = f () (s, evs ++ [ev]) := rfl

/-- The checked-transfer builder succeeds with the transfer instruction. -/
theorem bindE_transfer_builder (src mint dest auth : Pubkey) (amt dec : Nat)
    {S β : Type} (f : Instruction → M S β) (st : St S) :
    bindE (ofExcept (Spl.transfer_checked spl_token_2022_id src mint dest auth amt dec))
        f st =
      f (Instruction.transferCheckedIx spl_token_2022_id src mint dest auth amt dec) st := rfl

/-- The faithful validator always returns blockhash 0. -/
theorem bindE_blockhash_faithful {β : Type} (f : Hash → M World β) (w : World)
    (evs : List Event) :
    bindE (call_getLatestBlockhash faithfulEnv) f (w, evs) =
      f 0 (w, evs ++ [Event.call .getLatestBlockhash]) := rfl

/-- The complete faithful provisioning run: for any four distinct generated
keys it succeeds with the explicit final ledger and event trace. -/
theorem faithful_run_eq (kp mintk ta1 ta2 : Pubkey)
    (h1 : kp ≠ mintk) (h2 : kp ≠ ta1) (h3 : kp ≠ ta2)
    (h4 : mintk ≠ ta1) (h5 : mintk ≠ ta2) (h6 : ta1 ≠ ta2) (fuel : Nat) :
    airdrop_and_mint_token faithfulEnv kp mintk ta1 ta2 fuel (World.empty, []) =
      (.ok (), (faithfulFinalWorld kp mintk ta1 ta2, faithfulEvents kp mintk ta1 ta2)) := by
  simp only [airdrop_and_mint_token, bindE_airdrop_phase,
    bindE_create_mint_phase kp mintk h1,
    bindE_create_accounts_phase kp mintk ta1 ta2 h2 h3 h4 h5 h6,
    bindE_mint_to_phase kp mintk ta1 ta2,
    bindE_fetch_fw4_ta1 kp mintk ta1 ta2,
    bindE_emit_step,
    bindE_fetch_fw4_ta2 kp mintk ta1 ta2 h6,
    bindE_transfer_builder, Transaction.new_signed_with_payer,
    bindE_blockhash_faithful,
    bindE_send_transfer_phase kp mintk ta1 ta2 h6,
    bindE_fetch_final_ta1 kp mintk ta1 ta2,
    bindE_fetch_final_ta2 kp mintk ta1 ta2 h6]
  simp [pureE, faithfulEvents]

/-- C3 counterexample: the claim's expected balance strings are wrong.  At
concrete keys the faithful run's balance log lines carry the untrimmed
six-decimal strings produced by `amount_to_ui_amount_string`, and
"10000.000000" is not "10000" (likewise for the other three reads). -/
theorem balance_string_counterexample :
    balanceLogs (airdrop_and_mint_token faithfulEnv 0 1 2 3 1 (World.empty, [])).2.2 =
      [(2, "10000.000000"), (3, "0.000000"), (2, "9000.000000"), (3, "1000.000000")] ∧
    ("10000.000000" : String) ≠ "10000" ∧ ("0.000000" : String) ≠ "0" ∧
    ("9000.000000" : String) ≠ "9000" ∧ ("1000.000000" : String) ≠ "1000" := by
  refine ⟨by decide, by decide, by decide, by decide, by decide⟩

/-- C3 (amended): assuming the external RPC collaborator applies each
confirmed transaction faithfully, the provisioning run airdrops exactly
1,000,000,000 lamports, creates a mint with decimals 6 and mints exactly
10,000,000,000 base units to the first token account, so that the first
balance reads report the strings "10000.000000" and "0.000000", then
transfers exactly 1,000,000,000 base units from account 1 to account 2, so
that the second balance reads report "9000.000000" and "1000.000000". -/
theorem end_to_end_provisioning_spec (kp mintk ta1 ta2 : Pubkey)
    (h1 : kp ≠ mintk) (h2 : kp ≠ ta1) (h3 : kp ≠ ta2)
    (h4 : mintk ≠ ta1) (h5 : mintk ≠ ta2) (h6 : ta1 ≠ ta2) (fuel : Nat) :
    airdrop_and_mint_token faithfulEnv kp mintk ta1 ta2 fuel (World.empty, []) =
      (.ok (), (faithfulFinalWorld kp mintk ta1 ta2, faithfulEvents kp mintk ta1 ta2)) ∧
    (callsOf (faithfulEvents kp mintk ta1 ta2)).head? =
      some (RpcCall.requestAirdrop kp 1000000000) ∧
    alookup (faithfulFinalWorld kp mintk ta1 ta2).mints mintk =
      some ⟨kp, 6, 10000000000⟩ ∧
    alookup (faithfulFinalWorld kp mintk ta1 ta2).tokenAccts ta1 =
      some ⟨mintk, kp, 9000000000⟩ ∧
    alookup (faithfulFinalWorld kp mintk ta1 ta2).tokenAccts ta2 =
      some ⟨mintk, kp, 1000000000⟩ ∧
    balanceLogs (faithfulEvents kp mintk ta1 ta2) =
      [(ta1, "10000.000000"), (ta2, "0.000000"),
       (ta1, "9000.000000"), (ta2, "1000.000000")] := by
  refine ⟨faithful_run_eq kp mintk ta1 ta2 h1 h2 h3 h4 h5 h6 fuel, ?_, ?_, ?_, ?_, ?_⟩
  · simp [callsOf, faithfulEvents, eventCall]
  · simp [faithfulFinalWorld, alookup, World.mints]
  · simp [faithfulFinalWorld, alookup, World.tokenAccts]
  · simp [faithfulFinalWorld, alookup, World.tokenAccts, h6]
  · have hs1 : amount_to_ui_amount_string 10000000000 6 = "10000.000000" := by decide
    have hs2 : amount_to_ui_amount_string 0 6 = "0.000000" := by decide
    have hs3 : amount_to_ui_amount_string 9000000000 6 = "9000.000000" := by decide
    have hs4 : amount_to_ui_amount_string 1000000000 6 = "1000.000000" := by decide
    simp [balanceLogs, faithfulEvents, hs1, hs2, hs3, hs4]

/-- Witness for C3 at concrete distinct keys. -/
theorem end_to_end_provisioning_spec_witness :
    airdrop_and_mint_token faithfulEnv 0 1 2 3 1 (World.empty, []) =
      (.ok (), (faithfulFinalWorld 0 1 2 3, faithfulEvents 0 1 2 3)) ∧
    balanceLogs (faithfulEvents 0 1 2 3) =
      [(2, "10000.000000"), (3, "0.000000"), (2, "9000.000000"), (3, "1000.000000")] := by
  have h := end_to_end_provisioning_spec 0 1 2 3 (by decide) (by decide) (by decide)
    (by decide) (by decide) (by decide) 1
  exact ⟨h.1, h.2.2.2.2.2⟩

/-- C7: every on-chain mutation of the faithful run is wrapped in exactly
one signed transaction submitted via send-and-confirm, and the four
submitted transactions have exactly the stated shapes: mint creation is two
instructions (account creation then mint initialization) signed by the
identity and the mint key; the token-account transaction is four
instructions (create + initialize for each account) signed by the payer and
both new account keys; mint-to and checked transfer are single-instruction
transactions signed by the payer alone. -/
theorem transaction_shapes_spec (kp mintk ta1 ta2 : Pubkey)
    (h1 : kp ≠ mintk) (h2 : kp ≠ ta1) (h3 : kp ≠ ta2)
    (h4 : mintk ≠ ta1) (h5 : mintk ≠ ta2) (h6 : ta1 ≠ ta2) (fuel : Nat) :
    airdrop_and_mint_token faithfulEnv kp mintk ta1 ta2 fuel (World.empty, []) =
      (.ok (), (faithfulFinalWorld kp mintk ta1 ta2, faithfulEvents kp mintk ta1 ta2)) ∧
    sentTxs (faithfulEvents kp mintk ta1 ta2) =
      [⟨[Instruction.createAccount kp mintk 1461600 82 spl_token_2022_id,
         Instruction.initializeMint spl_token_2022_id mintk kp none 6],
        some kp, [kp, mintk], 0⟩,
       ⟨[Instruction.createAccount kp ta1 2039280 165 spl_token_2022_id,
         Instruction.initializeAccount spl_token_2022_id ta1 mintk kp,
         Instruction.createAccount kp ta2 2039280 165 spl_token_2022_id,
         Instruction.initializeAccount spl_token_2022_id ta2 mintk kp],
        some kp, [kp, ta1, ta2], 0⟩,
       ⟨[Instruction.mintToIx spl_token_2022_id mintk ta1 kp 10000000000],
        some kp, [kp], 0⟩,
       ⟨[Instruction.transferCheckedIx spl_token_2022_id ta1 mintk ta2 kp 1000000000 6],
        some kp, [kp], 0⟩] := by
  refine ⟨faithful_run_eq kp mintk ta1 ta2 h1 h2 h3 h4 h5 h6 fuel, ?_⟩
  simp [sentTxs, faithfulEvents, eventSentTx, mintTxOf, accountsTxOf, mintToTxOf,
    transferTxOf]

/-- Witness for C7 at concrete distinct keys. -/
theorem transaction_shapes_spec_witness :
    sentTxs (faithfulEvents 0 1 2 3) =
      [⟨[Instruction.createAccount 0 1 1461600 82 spl_token_2022_id,
         Instruction.initializeMint spl_token_2022_id 1 0 none 6],
        some 0, [0, 1], 0⟩,
       ⟨[Instruction.createAccount 0 2 2039280 165 spl_token_2022_id,
         Instruction.initializeAccount spl_token_2022_id 2 1 0,
         Instruction.createAccount 0 3 2039280 165 spl_token_2022_id,
         Instruction.initializeAccount spl_token_2022_id 3 1 0],
        some 0, [0, 2, 3], 0⟩,
       ⟨[Instruction.mintToIx spl_token_2022_id 1 2 0 10000000000], some 0, [0], 0⟩,
       ⟨[Instruction.transferCheckedIx spl_token_2022_id 2 1 3 0 1000000000 6],
        some 0, [0], 0⟩] :=
  (transaction_shapes_spec 0 1 2 3 (by decide) (by decide) (by decide) (by decide)
    (by decide) (by decide) 1).2

/-! ### Supervisor claims -/

/-- C5: The process awaits only the streaming task's handle before
terminating; the provisioning task's outcome never affects the process exit
status and is observable only through its boundary's own log lines. -/
theorem main_awaits_only_stream_spec (m m2 s : InnerOutcome) :
    mainAwaitedTasks = [TaskName.streamTask] ∧
    (mainRun m s).exit = (mainRun m2 s).exit ∧
    (mainRun m s).mintLogs = taskBoundaryLogs mint_task_error_message m :=
  ⟨rfl, rfl, rfl⟩

/-- C8: For every error value returned by either top-level task body, the
supervisor boundary discards the error's content and logs only that task's
fixed message, the same logged event regardless of which error occurred. -/
theorem error_boundary_fixed_message_spec (e e2 : ErrContent) (mo so : InnerOutcome) :
    (mainRun (.errValue e) so).mintLogs = [mint_task_error_message] ∧
    (mainRun mo (.errValue e)).streamLogs = [stream_task_error_message] ∧
    (mainRun (.errValue e) so).mintLogs = (mainRun (.errValue e2) so).mintLogs ∧
    (mainRun mo (.errValue e)).streamLogs = (mainRun mo (.errValue e2)).streamLogs :=
  ⟨rfl, rfl, rfl, rfl⟩

/-- C10: A panic inside the streaming task is not caught at the task's
boundary: it produces no boundary log line and surfaces as a join error,
which `main` propagates, failing the process — whereas a returned error
value is converted to a log line and the process still exits successfully. -/
theorem stream_panic_fails_process_spec (m : InnerOutcome) (e : ErrContent) :
    taskJoin .panicked = .joinError ∧
    (mainRun m .panicked).exit = .failure ∧
    (mainRun m .panicked).streamLogs = [] ∧
    (mainRun m (.errValue e)).exit = .success :=
  ⟨rfl, rfl, rfl, rfl⟩

end VixenDemo

